import Mathlib

/-!
# go-mcp: session lifecycle and capability dispatch (server/handle.go)

A shallow embedding of the request handlers of `server/handle.go`.

* The Go `*Server` receiver is threaded explicitly: every handler takes the
  server value and returns the pair of Go return values together with the
  server value after the call.
* A Go return `(*T, error)` is the pair `Option T × Option GoError`
  (`none` is `nil`).
* `sync.Map` is a list of key/value entries; `Load` returns the first entry
  stored under the key, and a write through the loaded `*session` pointer
  rewrites that entry in place.
* Registered handler functions are pure functions of the decoded request.
-/

namespace GoMcp

/-- Bytes of a `json.RawMessage`. The handlers never inspect them: they are
only handed to `pkg.JsonUnmarshal`. -/
abbrev RawMessage := String

/-- Go `error` values that reach the handlers: the sentinel
`pkg.ErrLackSession`, and errors carrying a message (`errors.New`,
`fmt.Errorf`, and whatever the decoder or a registered handler returns). -/
inductive GoError where
  | ErrLackSession
  | New (text : String)
  deriving DecidableEq, Repr

/-- A Go result pair `(*T, error)`. -/
abbrev Ret (α : Type) := Option α × Option GoError

namespace protocol

/-- Modelled from the spec: `protocol.InitializeRequest` is declared outside
handle.go ("the decoded initialize-request payload"); handle.go reads none of
its fields, so its content is kept as an uninterpreted payload. -/
structure InitializeRequest where
  payload : String
  deriving DecidableEq, Repr

/-- Modelled from the spec: `protocol.ServerCapabilities`, the server's
capability set, an uninterpreted constant of the server. -/
structure ServerCapabilities where
  payload : String
  deriving DecidableEq, Repr

/-- Modelled from the spec: `protocol.Implementation`, the server identity,
an uninterpreted constant of the server. -/
structure Implementation where
  payload : String
  deriving DecidableEq, Repr

/-- The three fields handle.go fills in `protocol.InitializeResult`. -/
structure InitializeResult where
  ProtocolVersion : String
  Capabilities : ServerCapabilities
  ServerInfo : Implementation
  deriving DecidableEq, Repr

/-- Modelled from the spec: `protocol.InitializedNotification`; no field is
read by handle.go. -/
structure InitializedNotification where
  payload : String
  deriving DecidableEq, Repr

/-- Modelled from the spec: `protocol.PingResult`, an empty result. -/
structure PingResult where
  deriving DecidableEq, Repr

/-- Modelled from the spec: `protocol.NewPingResponse()`, the constant ping
result. -/
def NewPingResponse : PingResult := {}

/-- Modelled from the spec: catalog entry `protocol.Prompt`, uninterpreted. -/
structure Prompt where
  payload : String
  deriving DecidableEq, Repr

/-- Modelled from the spec: catalog entry `protocol.Resource`,
uninterpreted. -/
structure Resource where
  payload : String
  deriving DecidableEq, Repr

/-- Modelled from the spec: catalog entry `protocol.ResourceTemplate`,
uninterpreted. -/
structure ResourceTemplate where
  payload : String
  deriving DecidableEq, Repr

/-- Modelled from the spec: catalog entry `protocol.Tool`, uninterpreted. -/
structure Tool where
  payload : String
  deriving DecidableEq, Repr

/-- Modelled from the spec: `protocol.ListPromptsRequest` (a cursor that
handle.go ignores). -/
structure ListPromptsRequest where
  payload : String
  deriving DecidableEq, Repr

/-- The field handle.go fills in `protocol.ListPromptsResult`. -/
structure ListPromptsResult where
  Prompts : List Prompt
  deriving DecidableEq, Repr

/-- Modelled from the spec: `protocol.ListResourcesRequest`. -/
structure ListResourcesRequest where
  payload : String
  deriving DecidableEq, Repr

/-- The field handle.go fills in `protocol.ListResourcesResult`. -/
structure ListResourcesResult where
  Resources : List Resource
  deriving DecidableEq, Repr

/-- Modelled from the spec: `protocol.ListResourceTemplatesRequest`. -/
structure ListResourceTemplatesRequest where
  payload : String
  deriving DecidableEq, Repr

/-- The field handle.go fills in `protocol.ListResourceTemplatesResult`. -/
structure ListResourceTemplatesResult where
  ResourceTemplates : List ResourceTemplate
  deriving DecidableEq, Repr

/-- Modelled from the spec: `protocol.ListToolsRequest`. -/
structure ListToolsRequest where
  payload : String
  deriving DecidableEq, Repr

/-- The field handle.go fills in `protocol.ListToolsResult`. -/
structure ListToolsResult where
  Tools : List Tool
  deriving DecidableEq, Repr

/-- Modelled from the spec: `protocol.GetPromptRequest`; handle.go reads
`Name`, the other fields are an uninterpreted payload. -/
structure GetPromptRequest where
  Name : String
  payload : String
  deriving DecidableEq, Repr

/-- Modelled from the spec: `protocol.GetPromptResult`, produced only by
registered handlers. -/
structure GetPromptResult where
  payload : String
  deriving DecidableEq, Repr

/-- Modelled from the spec: `protocol.ReadResourceRequest`; handle.go reads
`URI`. -/
structure ReadResourceRequest where
  URI : String
  payload : String
  deriving DecidableEq, Repr

/-- Modelled from the spec: `protocol.ReadResourceResult`, produced only by
registered handlers. -/
structure ReadResourceResult where
  payload : String
  deriving DecidableEq, Repr

/-- Modelled from the spec: `protocol.SubscribeRequest`; handle.go reads
`URI`. -/
structure SubscribeRequest where
  URI : String
  deriving DecidableEq, Repr

/-- Modelled from the spec: `protocol.SubscribeResult`; handle.go returns its
zero value. -/
structure SubscribeResult where
  deriving DecidableEq, Repr

/-- Modelled from the spec: `protocol.UnsubscribeRequest`; handle.go reads
`URI`. -/
structure UnsubscribeRequest where
  URI : String
  deriving DecidableEq, Repr

/-- Modelled from the spec: `protocol.UnsubscribeResult`; handle.go returns
its zero value. -/
structure UnsubscribeResult where
  deriving DecidableEq, Repr

/-- Modelled from the spec: `protocol.CallToolRequest`; handle.go reads
`Name`, the arguments are an uninterpreted payload. -/
structure CallToolRequest where
  Name : String
  payload : String
  deriving DecidableEq, Repr

/-- Modelled from the spec: `protocol.CallToolResult`, produced only by
registered handlers. -/
structure CallToolResult where
  payload : String
  deriving DecidableEq, Repr

/-- Modelled from the spec: the dynamic value of `CompleteRequest.Ref`. The
type switch of handle.go distinguishes `protocol.PromptReference` (fields
`Type`, `Name`), `protocol.ResourceReference` (fields `Type`, `URI`) and
every other dynamic type. -/
inductive Ref where
  | PromptReference (type name : String)
  | ResourceReference (type uri : String)
  | other (dynamicType : String)
  deriving DecidableEq, Repr

/-- Modelled from the spec: `protocol.CompleteRequest`; handle.go reads
`Ref`. -/
structure CompleteRequest where
  ref : Ref
  payload : String
  deriving DecidableEq, Repr

/-- Modelled from the spec: `protocol.CompleteResult`, produced only by
registered handlers. -/
structure CompleteResult where
  payload : String
  deriving DecidableEq, Repr

/-- Modelled from the spec: `protocol.SetLoggingLevelResult`; handle.go never
builds one. -/
structure SetLoggingLevelResult where
  payload : String
  deriving DecidableEq, Repr

end protocol

/-- Modelled from the spec: `pkg.JsonUnmarshal(rawParams, &request)` is
declared outside handle.go. It either fails with an error or fills the typed
request; one decoder per request type handle.go decodes into. -/
structure JsonUnmarshal where
  InitializeRequest : RawMessage → Except GoError protocol.InitializeRequest
  InitializedNotification : RawMessage → Except GoError protocol.InitializedNotification
  ListPromptsRequest : RawMessage → Except GoError protocol.ListPromptsRequest
  GetPromptRequest : RawMessage → Except GoError protocol.GetPromptRequest
  ListResourcesRequest : RawMessage → Except GoError protocol.ListResourcesRequest
  ReadResourceRequest : RawMessage → Except GoError protocol.ReadResourceRequest
  ListResourceTemplatesRequest :
    RawMessage → Except GoError protocol.ListResourceTemplatesRequest
  SubscribeRequest : RawMessage → Except GoError protocol.SubscribeRequest
  UnsubscribeRequest : RawMessage → Except GoError protocol.UnsubscribeRequest
  ListToolsRequest : RawMessage → Except GoError protocol.ListToolsRequest
  CallToolRequest : RawMessage → Except GoError protocol.CallToolRequest
  CompleteRequest : RawMessage → Except GoError protocol.CompleteRequest

/-- Modelled from the spec: the per-call `context.Context`, of which the
handlers use only the session id the transport stored in it (if any). -/
structure Context where
  sessionID : Option String
  deriving DecidableEq, Repr

/-- Modelled from the spec: `getSessionIDFromCtx` is declared outside
handle.go: "sessionID is extracted from an ambient per-call context supplied
by the transport". Without an id in the context it returns the empty string
and an error. -/
def getSessionIDFromCtx (ctx : Context) : String × Option GoError :=
  match ctx.sessionID with
  | some id => (id, none)
  | none => ("", some (GoError.New "no session id found"))

/-- Modelled from the spec: the type of `session.subscribedResources` is
declared outside handle.go: a "set of resource-identifier strings (insertion
order irrelevant)", written by `Set(key, struct\x7b\x7d\x7b\x7d)` and
`Remove(key)`. -/
abbrev SubscribedResources := Finset String

/-- `subscribedResources.Set(key, struct\x7b\x7d\x7b\x7d)`: the key is in the
set afterwards. -/
def SubscribedResources.Set (m : SubscribedResources) (key : String) : SubscribedResources :=
  insert key m

/-- `subscribedResources.Remove(key)`: the key is not in the set
afterwards. -/
def SubscribedResources.Remove (m : SubscribedResources) (key : String) : SubscribedResources :=
  m.erase key

/-- The fields of `session` that handle.go reads or writes. -/
structure session where
  clientInitializeRequest : Option protocol.InitializeRequest
  receiveInitRequest : Bool
  ready : Bool
  subscribedResources : SubscribedResources
  deriving DecidableEq

/-- The `sync.Map` from session id to `*session`. -/
abbrev SyncMap := List (String × session)

/-- `sync.Map.Load`: the value stored under `key`, if any. -/
def SyncMap.Load : SyncMap → String → Option session
  | [], _ => none
  | (k, v) :: rest, key => if k = key then some v else SyncMap.Load rest key

/-- A write through the `*session` that `Load key` returned: the session
stored under `key` is replaced by `f` of it. -/
def SyncMap.mutate : SyncMap → String → (session → session) → SyncMap
  | [], _, _ => []
  | (k, v) :: rest, key, f =>
    if k = key then (k, f v) :: rest else (k, v) :: SyncMap.mutate rest key f

/-- The fields of `Server` that handle.go reads or writes. A registry
`map[string]HandlerFunc` is a partial function from the key to the handler. -/
structure Server where
  protocolVersion : String
  capabilities : protocol.ServerCapabilities
  serverInfo : protocol.Implementation
  prompts : List protocol.Prompt
  resources : List protocol.Resource
  resourceTemplates : List protocol.ResourceTemplate
  tools : List protocol.Tool
  promptHandlers : String → Option (protocol.GetPromptRequest → Ret protocol.GetPromptResult)
  resourceHandlers :
    String → Option (protocol.ReadResourceRequest → Ret protocol.ReadResourceResult)
  toolHandlers : String → Option (protocol.CallToolRequest → Ret protocol.CallToolResult)
  completionHandlers :
    String → Option (protocol.CompleteRequest → Ret protocol.CompleteResult)
  sessionID2session : SyncMap

/-- A Go assignment to a variable that is already declared: the value it held
is dropped. -/
abbrev assign {α : Type} (_old new : α) : α := new

/-- Lines 13-44 of handle.go. The `sessionID` argument is overwritten by the id
taken from the context before the session is looked up. -/
def handleRequestWithInitialize (J : JsonUnmarshal) (server : Server) (ctx : Context)
    (sessionID : String) (rawParams : RawMessage) : Ret protocol.InitializeResult × Server :=
  match J.InitializeRequest rawParams with
  | .error err => ((none, some err), server)
  | .ok request =>
    let sessionID := assign sessionID (getSessionIDFromCtx ctx).1
    match server.sessionID2session.Load sessionID with
    | none => ((none, some GoError.ErrLackSession), server)
    | some _ =>
      let server1 : Server :=
        { server with
          sessionID2session := server.sessionID2session.mutate sessionID
            (fun s => { s with clientInitializeRequest := some request }) }
      let result : protocol.InitializeResult :=
        { ProtocolVersion := server1.protocolVersion
          Capabilities := server1.capabilities
          ServerInfo := server1.serverInfo }
      match server1.sessionID2session.Load sessionID with
      | none => ((none, some GoError.ErrLackSession), server1)
      | some _ =>
        ((some result, none),
          { server1 with
            sessionID2session := server1.sessionID2session.mutate sessionID
              (fun s => { s with receiveInitRequest := true }) })

/-- Lines 46-48 of handle.go. -/
def handleRequestWithPing (server : Server) (_ctx : Context) (_rawParams : RawMessage) :
    Ret protocol.PingResult × Server :=
  ((some protocol.NewPingResponse, none), server)

/-- Lines 50-60 of handle.go. -/
def handleRequestWithListPrompts (J : JsonUnmarshal) (server : Server) (_ctx : Context)
    (rawParams : RawMessage) : Ret protocol.ListPromptsResult × Server :=
  match J.ListPromptsRequest rawParams with
  | .error err => ((none, some err), server)
  | .ok _ => ((some { Prompts := server.prompts }, none), server)

/-- Lines 62-74 of handle.go. -/
def handleRequestWithGetPrompt (J : JsonUnmarshal) (server : Server) (_ctx : Context)
    (rawParams : RawMessage) : Ret protocol.GetPromptResult × Server :=
  match J.GetPromptRequest rawParams with
  | .error err => ((none, some err), server)
  | .ok request =>
    match server.promptHandlers request.Name with
    | none =>
      ((none, some (GoError.New ("missing prompt handler, promptName=" ++ request.Name))),
        server)
    | some handlerFunc => (handlerFunc request, server)

/-- Lines 76-86 of handle.go. -/
def handleRequestWithListResources (J : JsonUnmarshal) (server : Server) (_ctx : Context)
    (rawParams : RawMessage) : Ret protocol.ListResourcesResult × Server :=
  match J.ListResourcesRequest rawParams with
  | .error err => ((none, some err), server)
  | .ok _ => ((some { Resources := server.resources }, none), server)

/-- Lines 88-99 of handle.go. -/
def handleRequestWithReadResource (J : JsonUnmarshal) (server : Server) (_ctx : Context)
    (rawParams : RawMessage) : Ret protocol.ReadResourceResult × Server :=
  match J.ReadResourceRequest rawParams with
  | .error err => ((none, some err), server)
  | .ok request =>
    match server.resourceHandlers request.URI with
    | none =>
      ((none, some (GoError.New ("missing resource read handler, uri=" ++ request.URI))),
        server)
    | some handlerFunc => (handlerFunc request, server)

/-- Lines 101-111 of handle.go. -/
def handleRequestWitListResourceTemplates (J : JsonUnmarshal) (server : Server)
    (_ctx : Context) (rawParams : RawMessage) :
    Ret protocol.ListResourceTemplatesResult × Server :=
  match J.ListResourceTemplatesRequest rawParams with
  | .error err => ((none, some err), server)
  | .ok _ => ((some { ResourceTemplates := server.resourceTemplates }, none), server)

/-- Lines 113-127 of handle.go. -/
def handleRequestWithSubscribeResourceChange (J : JsonUnmarshal) (server : Server)
    (ctx : Context) (rawParams : RawMessage) : Ret protocol.SubscribeResult × Server :=
  match J.SubscribeRequest rawParams with
  | .error err => ((none, some err), server)
  | .ok request =>
    let sessionID := (getSessionIDFromCtx ctx).1
    match server.sessionID2session.Load sessionID with
    | none => ((none, some GoError.ErrLackSession), server)
    | some _ =>
      ((some {}, none),
        { server with
          sessionID2session := server.sessionID2session.mutate sessionID
            (fun s => { s with subscribedResources := s.subscribedResources.Set request.URI }) })

/-- Lines 129-143 of handle.go. -/
def handleRequestWithUnSubscribeResourceChange (J : JsonUnmarshal) (server : Server)
    (ctx : Context) (rawParams : RawMessage) : Ret protocol.UnsubscribeResult × Server :=
  match J.UnsubscribeRequest rawParams with
  | .error err => ((none, some err), server)
  | .ok request =>
    let sessionID := (getSessionIDFromCtx ctx).1
    match server.sessionID2session.Load sessionID with
    | none => ((none, some GoError.ErrLackSession), server)
    | some _ =>
      ((some {}, none),
        { server with
          sessionID2session := server.sessionID2session.mutate sessionID
            (fun s =>
              { s with subscribedResources := s.subscribedResources.Remove request.URI }) })

/-- Lines 145-152 of handle.go. -/
def handleRequestWithListTools (J : JsonUnmarshal) (server : Server) (_ctx : Context)
    (rawParams : RawMessage) : Ret protocol.ListToolsResult × Server :=
  match J.ListToolsRequest rawParams with
  | .error err => ((none, some err), server)
  | .ok _ => ((some { Tools := server.tools }, none), server)

/-- Lines 154-167 of handle.go. -/
def handleRequestWithCallTool (J : JsonUnmarshal) (server : Server) (_ctx : Context)
    (rawParams : RawMessage) : Ret protocol.CallToolResult × Server :=
  match J.CallToolRequest rawParams with
  | .error err => ((none, some err), server)
  | .ok request =>
    match server.toolHandlers request.Name with
    | none =>
      ((none, some (GoError.New ("missing tool call handler, toolName=" ++ request.Name))),
        server)
    | some handlerFunc => (handlerFunc request, server)

/-- The type switch of lines 175-183 of handle.go: the registry key
`fmt.Sprintf("%s/%s", ...)` of a recognised reference, or the error of the
default branch. -/
def handerName (ref : protocol.Ref) : Except GoError String :=
  match ref with
  | .PromptReference type name => .ok (type ++ "/" ++ name)
  | .ResourceReference type uri => .ok (type ++ "/" ++ uri)
  | .other _ => .error (GoError.New "invalid complete request")

/-- Lines 169-190 of handle.go. -/
def handleRequestWithCompleteRequest (J : JsonUnmarshal) (server : Server) (_ctx : Context)
    (rawParams : RawMessage) : Ret protocol.CompleteResult × Server :=
  match J.CompleteRequest rawParams with
  | .error err => ((none, some err), server)
  | .ok request =>
    match handerName request.ref with
    | .error err => ((none, some err), server)
    | .ok name =>
      match server.completionHandlers name with
      | none => ((none, some (GoError.New ("missing complete handler, name=" ++ name))), server)
      | some handlerFunc => (handlerFunc request, server)

/-- Lines 192-194 of handle.go. -/
def handleRequestWithSetLogLevel (server : Server) (_ctx : Context) (_sessionID : String)
    (_rawParams : RawMessage) : Ret protocol.SetLoggingLevelResult × Server :=
  ((none, none), server)

/-- Lines 196-213 of handle.go. The session is looked up under the
`sessionID` argument. -/
def handleNotifyWithInitialized (J : JsonUnmarshal) (server : Server) (_ctx : Context)
    (sessionID : String) (rawParams : RawMessage) : Option GoError × Server :=
  match J.InitializedNotification rawParams with
  | .error err => (some err, server)
  | .ok _ =>
    match server.sessionID2session.Load sessionID with
    | none => (some GoError.ErrLackSession, server)
    | some s =>
      if !s.receiveInitRequest then
        (some (GoError.New "the server has not received the client's initialization request"),
          server)
      else
        (none,
          { server with
            sessionID2session := server.sessionID2session.mutate sessionID
              (fun s => { s with ready := true }) })

/-- The methods served by handle.go. -/
inductive Method where
  | Initialize
  | Initialized
  | Subscribe
  | Unsubscribe
  | SetLogLevel
  | Ping
  | ListPrompts
  | GetPrompt
  | ListResources
  | ReadResource
  | ListResourceTemplates
  | ListTools
  | CallTool
  | Complete
  deriving DecidableEq, Repr

/-- The typed result of any of the handlers. -/
inductive Result where
  | Initialize (r : protocol.InitializeResult)
  | Ping (r : protocol.PingResult)
  | ListPrompts (r : protocol.ListPromptsResult)
  | GetPrompt (r : protocol.GetPromptResult)
  | ListResources (r : protocol.ListResourcesResult)
  | ReadResource (r : protocol.ReadResourceResult)
  | ListResourceTemplates (r : protocol.ListResourceTemplatesResult)
  | Subscribe (r : protocol.SubscribeResult)
  | Unsubscribe (r : protocol.UnsubscribeResult)
  | ListTools (r : protocol.ListToolsResult)
  | CallTool (r : protocol.CallToolResult)
  | Complete (r : protocol.CompleteResult)
  | SetLoggingLevel (r : protocol.SetLoggingLevelResult)
  deriving DecidableEq, Repr

/-- One incoming message as the transport hands it to the dispatcher. -/
structure Call where
  method : Method
  ctx : Context
  sessionID : String
  rawParams : RawMessage
  deriving DecidableEq, Repr

/-- Retag the typed result of a handler. -/
def tagged {α : Type} (tag : α → Result) (r : Ret α × Server) : Ret Result × Server :=
  ((r.1.1.map tag, r.1.2), r.2)

/-- Modelled from the spec: the method switch is declared outside handle.go
("routes a decoded method name to session-state logic or to a capability
handler"); each method runs its handler of handle.go on the context, session
id and raw parameters of the call. -/
def dispatch (J : JsonUnmarshal) (server : Server) (c : Call) : Ret Result × Server :=
  match c.method with
  | .Initialize =>
    tagged Result.Initialize (handleRequestWithInitialize J server c.ctx c.sessionID c.rawParams)
  | .Initialized =>
    let r := handleNotifyWithInitialized J server c.ctx c.sessionID c.rawParams
    ((none, r.1), r.2)
  | .Subscribe =>
    tagged Result.Subscribe (handleRequestWithSubscribeResourceChange J server c.ctx c.rawParams)
  | .Unsubscribe =>
    tagged Result.Unsubscribe
      (handleRequestWithUnSubscribeResourceChange J server c.ctx c.rawParams)
  | .SetLogLevel =>
    tagged Result.SetLoggingLevel (handleRequestWithSetLogLevel server c.ctx c.sessionID c.rawParams)
  | .Ping => tagged Result.Ping (handleRequestWithPing server c.ctx c.rawParams)
  | .ListPrompts =>
    tagged Result.ListPrompts (handleRequestWithListPrompts J server c.ctx c.rawParams)
  | .GetPrompt => tagged Result.GetPrompt (handleRequestWithGetPrompt J server c.ctx c.rawParams)
  | .ListResources =>
    tagged Result.ListResources (handleRequestWithListResources J server c.ctx c.rawParams)
  | .ReadResource =>
    tagged Result.ReadResource (handleRequestWithReadResource J server c.ctx c.rawParams)
  | .ListResourceTemplates =>
    tagged Result.ListResourceTemplates
      (handleRequestWitListResourceTemplates J server c.ctx c.rawParams)
  | .ListTools => tagged Result.ListTools (handleRequestWithListTools J server c.ctx c.rawParams)
  | .CallTool => tagged Result.CallTool (handleRequestWithCallTool J server c.ctx c.rawParams)
  | .Complete =>
    tagged Result.Complete (handleRequestWithCompleteRequest J server c.ctx c.rawParams)

/-- The server after a finite sequence of calls, dispatched one after the
other. -/
def run (J : JsonUnmarshal) (server : Server) : List Call → Server
  | [] => server
  | c :: rest => run J (dispatch J server c).2 rest

/-- The handshake ordering invariant on every entry of the session store:
a session that is ready has received its initialize request. -/
def HandshakeOrdered (server : Server) : Prop :=
  ∀ p ∈ server.sessionID2session, p.2.ready = true → p.2.receiveInitRequest = true

/-- A session as the transport creates it: no client information, both
flags false, no subscription. -/
def freshSession : session :=
  { clientInitializeRequest := none
    receiveInitRequest := false
    ready := false
    subscribedResources := ∅ }

/-- A small decoder used to run the handlers on concrete inputs: the payload
of one opening brace (an unterminated JSON object) is rejected, every other
payload is accepted and its text is the name or URI of the request. Complete
requests carry a prompt reference for the payload "prompt", a resource
reference for the payload "resource", and a reference of another dynamic type
otherwise. -/
def textUnmarshal : JsonUnmarshal where
  InitializeRequest raw :=
    if raw = "\x7b" then .error (GoError.New "unexpected end of JSON input") else .ok ⟨raw⟩
  InitializedNotification raw :=
    if raw = "\x7b" then .error (GoError.New "unexpected end of JSON input") else .ok ⟨raw⟩
  ListPromptsRequest raw :=
    if raw = "\x7b" then .error (GoError.New "unexpected end of JSON input") else .ok ⟨raw⟩
  GetPromptRequest raw :=
    if raw = "\x7b" then .error (GoError.New "unexpected end of JSON input") else .ok ⟨raw, ""⟩
  ListResourcesRequest raw :=
    if raw = "\x7b" then .error (GoError.New "unexpected end of JSON input") else .ok ⟨raw⟩
  ReadResourceRequest raw :=
    if raw = "\x7b" then .error (GoError.New "unexpected end of JSON input") else .ok ⟨raw, ""⟩
  ListResourceTemplatesRequest raw :=
    if raw = "\x7b" then .error (GoError.New "unexpected end of JSON input") else .ok ⟨raw⟩
  SubscribeRequest raw :=
    if raw = "\x7b" then .error (GoError.New "unexpected end of JSON input") else .ok ⟨raw⟩
  UnsubscribeRequest raw :=
    if raw = "\x7b" then .error (GoError.New "unexpected end of JSON input") else .ok ⟨raw⟩
  ListToolsRequest raw :=
    if raw = "\x7b" then .error (GoError.New "unexpected end of JSON input") else .ok ⟨raw⟩
  CallToolRequest raw :=
    if raw = "\x7b" then .error (GoError.New "unexpected end of JSON input") else .ok ⟨raw, ""⟩
  CompleteRequest raw :=
    if raw = "\x7b" then .error (GoError.New "unexpected end of JSON input")
    else if raw = "prompt" then .ok ⟨.PromptReference "ref/prompt" "greet", ""⟩
    else if raw = "resource" then .ok ⟨.ResourceReference "ref/resource" "file:///a", ""⟩
    else .ok ⟨.other raw, ""⟩

/-- A server with empty catalogs and registries over the given session
store. -/
def bareServer (sessions : SyncMap) : Server :=
  { protocolVersion := "2024-11-05"
    capabilities := ⟨"caps"⟩
    serverInfo := ⟨"go-mcp"⟩
    prompts := []
    resources := []
    resourceTemplates := []
    tools := []
    promptHandlers := fun _ => none
    resourceHandlers := fun _ => none
    toolHandlers := fun _ => none
    completionHandlers := fun _ => none
    sessionID2session := sessions }

/-- A call whose context and session-id argument carry the same id. -/
def callOf (method : Method) (id : String) (rawParams : RawMessage) : Call :=
  { method := method, ctx := ⟨some id⟩, sessionID := id, rawParams := rawParams }

/-- The error of a failed decode, `none` for a successful one. -/
def errorOf {α : Type} : Except GoError α → Option GoError
  | .error err => some err
  | .ok _ => none

/-- The error with which `pkg.JsonUnmarshal` rejects the raw parameters in the
handler of the method, `none` when it accepts them or the handler does not
decode (ping, set-log-level). -/
def decodeError (J : JsonUnmarshal) (method : Method) (rawParams : RawMessage) :
    Option GoError :=
  match method with
  | .Initialize => errorOf (J.InitializeRequest rawParams)
  | .Initialized => errorOf (J.InitializedNotification rawParams)
  | .Subscribe => errorOf (J.SubscribeRequest rawParams)
  | .Unsubscribe => errorOf (J.UnsubscribeRequest rawParams)
  | .SetLogLevel => none
  | .Ping => none
  | .ListPrompts => errorOf (J.ListPromptsRequest rawParams)
  | .GetPrompt => errorOf (J.GetPromptRequest rawParams)
  | .ListResources => errorOf (J.ListResourcesRequest rawParams)
  | .ReadResource => errorOf (J.ReadResourceRequest rawParams)
  | .ListResourceTemplates => errorOf (J.ListResourceTemplatesRequest rawParams)
  | .ListTools => errorOf (J.ListToolsRequest rawParams)
  | .CallTool => errorOf (J.CallToolRequest rawParams)
  | .Complete => errorOf (J.CompleteRequest rawParams)

/-- The methods whose handler looks the session up in the session store. -/
def Method.sessionAffecting : Method → Bool
  | .Initialize => true
  | .Initialized => true
  | .Subscribe => true
  | .Unsubscribe => true
  | _ => false

/-- A tool registry with two handlers, "sum" and "echo". -/
def sumAndEcho :
    String → Option (protocol.CallToolRequest → Ret protocol.CallToolResult) :=
  fun name =>
    if name = "sum" then some (fun _ => (some ⟨"sum result"⟩, none))
    else if name = "echo" then some (fun request => (some ⟨request.payload⟩, none))
    else none

/-- A completion registry with one handler, registered under the key of the
prompt reference of type "ref/prompt" and name "greet". -/
def greetCompletion :
    String → Option (protocol.CompleteRequest → Ret protocol.CompleteResult) :=
  fun key => if key = "ref/prompt/greet" then some (fun _ => (some ⟨"hello"⟩, none)) else none

/-- A server with two entries in each catalog and no session. -/
def catalogServer : Server :=
  { bareServer [] with
    prompts := [⟨"greet"⟩, ⟨"bye"⟩]
    resources := [⟨"file:///b"⟩, ⟨"file:///a"⟩]
    resourceTemplates := [⟨"file:///x"⟩, ⟨"file:///y"⟩]
    tools := [⟨"sum"⟩, ⟨"echo"⟩] }

/-- A prompt registry with one handler, "greet", which echoes the payload of
the request. -/
def greetPrompt :
    String → Option (protocol.GetPromptRequest → Ret protocol.GetPromptResult) :=
  fun name => if name = "greet" then some (fun request => (some ⟨request.payload⟩, none)) else none

/-- A resource registry with one handler, "file:///a", which fails. -/
def failingResource :
    String → Option (protocol.ReadResourceRequest → Ret protocol.ReadResourceResult) :=
  fun uri => if uri = "file:///a" then some (fun _ => (none, some (GoError.New "disk failure")))
    else none

/-- The session id under which the handler of the call looks the session up:
the `sessionID` argument in `handleNotifyWithInitialized`, the id taken from
the context in the other handlers. -/
def Call.target (c : Call) : String :=
  match c.method with
  | .Initialized => c.sessionID
  | _ => (getSessionIDFromCtx c.ctx).1

/-- The writes of handle.go to a session, from the session before (`s`) to
the session after (`t`) a call: none, the two writes of a successful
initialize, the `ready` write of an accepted initialized notification, and
the `Set` or `Remove` of a subscribe or unsubscribe. -/
def SessionWrite (J : JsonUnmarshal) (c : Call) (s t : session) : Prop :=
  t = s ∨
  (∃ r, c.method = .Initialize ∧ J.InitializeRequest c.rawParams = .ok r ∧
    t = { s with clientInitializeRequest := some r, receiveInitRequest := true }) ∨
  (c.method = .Initialized ∧ s.receiveInitRequest = true ∧ t = { s with ready := true }) ∨
  (∃ q, c.method = .Subscribe ∧ J.SubscribeRequest c.rawParams = .ok q ∧
    t = { s with subscribedResources := s.subscribedResources.Set q.URI }) ∨
  (∃ q, c.method = .Unsubscribe ∧ J.UnsubscribeRequest c.rawParams = .ok q ∧
    t = { s with subscribedResources := s.subscribedResources.Remove q.URI })

/-- The raw parameters of the empty JSON object. -/
def emptyObject : RawMessage := "\x7b\x7d"

/-- The raw parameters of an initialize request for the protocol version
2024-11-05: a JSON object with the one member protocolVersion. -/
def initializeA : RawMessage := "\x7b\"protocolVersion\":\"2024-11-05\"\x7d"

/-- The raw parameters of an initialize request for the protocol version
2025-03-26: a JSON object with the one member protocolVersion. -/
def initializeB : RawMessage := "\x7b\"protocolVersion\":\"2025-03-26\"\x7d"

/-- A decoder that accepts JSON objects only. The empty object decodes, for
every request type, to the request with empty fields; the two initialize
objects decode to the requests for their protocol versions; every other
payload, the empty payload included, is rejected. -/
def objectUnmarshal : JsonUnmarshal where
  InitializeRequest raw :=
    if raw = emptyObject then .ok ⟨""⟩
    else if raw = initializeA then .ok ⟨"2024-11-05"⟩
    else if raw = initializeB then .ok ⟨"2025-03-26"⟩
    else .error (GoError.New "invalid JSON input")
  InitializedNotification raw :=
    if raw = emptyObject then .ok ⟨""⟩ else .error (GoError.New "invalid JSON input")
  ListPromptsRequest raw :=
    if raw = emptyObject then .ok ⟨""⟩ else .error (GoError.New "invalid JSON input")
  GetPromptRequest raw :=
    if raw = emptyObject then .ok ⟨"", ""⟩ else .error (GoError.New "invalid JSON input")
  ListResourcesRequest raw :=
    if raw = emptyObject then .ok ⟨""⟩ else .error (GoError.New "invalid JSON input")
  ReadResourceRequest raw :=
    if raw = emptyObject then .ok ⟨"", ""⟩ else .error (GoError.New "invalid JSON input")
  ListResourceTemplatesRequest raw :=
    if raw = emptyObject then .ok ⟨""⟩ else .error (GoError.New "invalid JSON input")
  SubscribeRequest raw :=
    if raw = emptyObject then .ok ⟨""⟩ else .error (GoError.New "invalid JSON input")
  UnsubscribeRequest raw :=
    if raw = emptyObject then .ok ⟨""⟩ else .error (GoError.New "invalid JSON input")
  ListToolsRequest raw :=
    if raw = emptyObject then .ok ⟨""⟩ else .error (GoError.New "invalid JSON input")
  CallToolRequest raw :=
    if raw = emptyObject then .ok ⟨"", ""⟩ else .error (GoError.New "invalid JSON input")
  CompleteRequest raw :=
    if raw = emptyObject then .ok ⟨.other "nil", ""⟩
    else .error (GoError.New "invalid JSON input")

/-- A session after a successful initialize that carried the request for the
protocol version 2024-11-05. -/
def handshakingSession : session :=
  { clientInitializeRequest := some ⟨"2024-11-05"⟩
    receiveInitRequest := true
    ready := false
    subscribedResources := ∅ }

/-- The session with both handshake flags cleared. -/
def session.withoutFlags (s : session) : session :=
  { s with receiveInitRequest := false, ready := false }

/-- The server with the handshake flags of every session cleared. Two servers
differ at most in the receiveInitRequest and ready flags of their sessions
exactly when they agree after this. -/
def Server.withoutFlags (server : Server) : Server :=
  { server with
    sessionID2session := server.sessionID2session.map (fun p => (p.1, p.2.withoutFlags)) }

/-- A fresh session with both handshake flags set. -/
def readySession : session :=
  { clientInitializeRequest := none
    receiveInitRequest := true
    ready := true
    subscribedResources := ∅ }

/-- Whether the tag `t` followed by "/" is a prefix of the tag `t2`, as for
the tags "a" and "a/b". -/
def tagExtends (t t2 : String) : Bool :=
  (t ++ "/").data.isPrefixOf t2.data

/-! ## The session store -/

theorem SyncMap.Load_mutate (m : SyncMap) (key : String) (f : session → session) (k : String) :
    SyncMap.Load (SyncMap.mutate m key f) k
      = if k = key then (SyncMap.Load m key).map f else SyncMap.Load m k := by
  induction m with
  | nil => simp [SyncMap.Load, SyncMap.mutate]
  | cons hd tl ih =>
    obtain ⟨a, v⟩ := hd
    by_cases ha : a = key
    · subst ha
      by_cases hk : k = a
      · subst hk; simp [SyncMap.Load, SyncMap.mutate]
      · have hk2 : ¬ a = k := fun h => hk h.symm
        simp [SyncMap.Load, SyncMap.mutate, hk, hk2]
    · by_cases hk : k = key
      · subst hk
        simp [SyncMap.Load, SyncMap.mutate, ha, ih]
      · by_cases hak : a = k
        · simp [SyncMap.Load, SyncMap.mutate, ha, hak, hk]
        · simp [SyncMap.Load, SyncMap.mutate, ha, hak, hk, ih]

theorem SyncMap.mutate_of_fix (m : SyncMap) (key : String) (f : session → session)
    (h : ∀ v, SyncMap.Load m key = some v → f v = v) : SyncMap.mutate m key f = m := by
  induction m with
  | nil => rfl
  | cons hd tl ih =>
    obtain ⟨a, v⟩ := hd
    by_cases ha : a = key
    · have hv : f v = v := h v (by simp [SyncMap.Load, ha])
      simp [SyncMap.mutate, ha, hv]
    · have htl : SyncMap.mutate tl key f = tl :=
        ih (fun w hw => h w (by simpa [SyncMap.Load, ha] using hw))
      simp [SyncMap.mutate, ha, htl]

theorem SyncMap.mutate_of_Load_none (m : SyncMap) (key : String) (f : session → session)
    (h : SyncMap.Load m key = none) : SyncMap.mutate m key f = m :=
  SyncMap.mutate_of_fix m key f (fun v hv => by rw [h] at hv; cases hv)

theorem SyncMap.mutate_mutate (m : SyncMap) (key : String) (f g : session → session) :
    SyncMap.mutate (SyncMap.mutate m key f) key g = SyncMap.mutate m key (fun s => g (f s)) := by
  induction m with
  | nil => rfl
  | cons hd tl ih =>
    obtain ⟨a, v⟩ := hd
    by_cases ha : a = key
    · simp [SyncMap.mutate, ha]
    · simp [SyncMap.mutate, ha, ih]

theorem SyncMap.keys_mutate (m : SyncMap) (key : String) (f : session → session) :
    (SyncMap.mutate m key f).map Prod.fst = m.map Prod.fst := by
  induction m with
  | nil => rfl
  | cons hd tl ih =>
    obtain ⟨a, v⟩ := hd
    by_cases ha : a = key
    · simp [SyncMap.mutate, ha]
    · simp [SyncMap.mutate, ha, ih]

theorem SyncMap.forall_mutate (Q : session → Prop) (m : SyncMap) (key : String)
    (f : session → session) (hm : ∀ p ∈ m, Q p.2)
    (hf : ∀ v, SyncMap.Load m key = some v → Q (f v)) :
    ∀ p ∈ SyncMap.mutate m key f, Q p.2 := by
  induction m with
  | nil => intro p hp; simp [SyncMap.mutate] at hp
  | cons hd tl ih =>
    obtain ⟨a, v⟩ := hd
    by_cases ha : a = key
    · intro p hp
      simp only [SyncMap.mutate, ha, if_true, List.mem_cons] at hp
      rcases hp with hp | hp
      · subst hp
        exact hf v (by simp [SyncMap.Load, ha])
      · exact hm p (List.mem_cons_of_mem _ hp)
    · intro p hp
      simp only [SyncMap.mutate, ha, if_false, List.mem_cons] at hp
      rcases hp with hp | hp
      · subst hp
        exact hm (a, v) (List.mem_cons_self _ _)
      · exact ih (fun q hq => hm q (List.mem_cons_of_mem _ hq))
          (fun w hw => hf w (by simpa [SyncMap.Load, ha] using hw)) p hp

theorem SyncMap.Load_mem (m : SyncMap) (key : String) (v : session)
    (h : SyncMap.Load m key = some v) : (key, v) ∈ m := by
  induction m with
  | nil => simp [SyncMap.Load] at h
  | cons hd tl ih =>
    obtain ⟨a, w⟩ := hd
    by_cases ha : a = key
    · simp [SyncMap.Load, ha] at h
      subst h; subst ha
      exact List.mem_cons_self _ _
    · simp [SyncMap.Load, ha] at h
      exact List.mem_cons_of_mem _ (ih h)

/-! ## Handlers that never write the server -/

theorem handleRequestWithListPrompts_server (J : JsonUnmarshal) (server : Server)
    (ctx : Context) (raw : RawMessage) :
    (handleRequestWithListPrompts J server ctx raw).2 = server := by
  unfold handleRequestWithListPrompts; split <;> rfl

theorem handleRequestWithListResources_server (J : JsonUnmarshal) (server : Server)
    (ctx : Context) (raw : RawMessage) :
    (handleRequestWithListResources J server ctx raw).2 = server := by
  unfold handleRequestWithListResources; split <;> rfl

theorem handleRequestWitListResourceTemplates_server (J : JsonUnmarshal) (server : Server)
    (ctx : Context) (raw : RawMessage) :
    (handleRequestWitListResourceTemplates J server ctx raw).2 = server := by
  unfold handleRequestWitListResourceTemplates; split <;> rfl

theorem handleRequestWithListTools_server (J : JsonUnmarshal) (server : Server)
    (ctx : Context) (raw : RawMessage) :
    (handleRequestWithListTools J server ctx raw).2 = server := by
  unfold handleRequestWithListTools; split <;> rfl

theorem handleRequestWithGetPrompt_server (J : JsonUnmarshal) (server : Server)
    (ctx : Context) (raw : RawMessage) :
    (handleRequestWithGetPrompt J server ctx raw).2 = server := by
  unfold handleRequestWithGetPrompt
  split
  · rfl
  · split <;> rfl

theorem handleRequestWithReadResource_server (J : JsonUnmarshal) (server : Server)
    (ctx : Context) (raw : RawMessage) :
    (handleRequestWithReadResource J server ctx raw).2 = server := by
  unfold handleRequestWithReadResource
  split
  · rfl
  · split <;> rfl

theorem handleRequestWithCallTool_server (J : JsonUnmarshal) (server : Server)
    (ctx : Context) (raw : RawMessage) :
    (handleRequestWithCallTool J server ctx raw).2 = server := by
  unfold handleRequestWithCallTool
  split
  · rfl
  · split <;> rfl

theorem handleRequestWithCompleteRequest_server (J : JsonUnmarshal) (server : Server)
    (ctx : Context) (raw : RawMessage) :
    (handleRequestWithCompleteRequest J server ctx raw).2 = server := by
  unfold handleRequestWithCompleteRequest
  split
  · rfl
  · split
    · rfl
    · split <;> rfl

/-! ## Handshake ordering -/

theorem handleRequestWithInitialize_ordered (J : JsonUnmarshal) (server : Server)
    (ctx : Context) (sessionID : String) (raw : RawMessage) (h : HandshakeOrdered server) :
    HandshakeOrdered (handleRequestWithInitialize J server ctx sessionID raw).2 := by
  unfold handleRequestWithInitialize
  split
  · exact h
  · simp only
    split
    · exact h
    · split
      · exact SyncMap.forall_mutate (fun s => s.ready = true → s.receiveInitRequest = true)
          _ _ _ h (fun v hv hr => by
            have := SyncMap.Load_mem server.sessionID2session _ v hv
            exact h _ this hr)
      · simp only [SyncMap.mutate_mutate]
        exact SyncMap.forall_mutate (fun s => s.ready = true → s.receiveInitRequest = true)
          _ _ _ h (fun v _ _ => rfl)

theorem handleNotifyWithInitialized_ordered (J : JsonUnmarshal) (server : Server)
    (ctx : Context) (sessionID : String) (raw : RawMessage) (h : HandshakeOrdered server) :
    HandshakeOrdered (handleNotifyWithInitialized J server ctx sessionID raw).2 := by
  unfold handleNotifyWithInitialized
  split
  · exact h
  · split
    · exact h
    · rename_i s hs
      split
      · exact h
      · rename_i hrecv
        exact SyncMap.forall_mutate (fun s => s.ready = true → s.receiveInitRequest = true)
          _ _ _ h (fun v hv _ => by
            rw [hs] at hv
            cases hv
            simpa using hrecv)

theorem handleRequestWithSubscribeResourceChange_ordered (J : JsonUnmarshal) (server : Server)
    (ctx : Context) (raw : RawMessage) (h : HandshakeOrdered server) :
    HandshakeOrdered (handleRequestWithSubscribeResourceChange J server ctx raw).2 := by
  unfold handleRequestWithSubscribeResourceChange
  split
  · exact h
  · simp only
    split
    · exact h
    · exact SyncMap.forall_mutate (fun s => s.ready = true → s.receiveInitRequest = true)
        _ _ _ h (fun v hv hr => h _ (SyncMap.Load_mem server.sessionID2session _ v hv) hr)

theorem handleRequestWithUnSubscribeResourceChange_ordered (J : JsonUnmarshal)
    (server : Server) (ctx : Context) (raw : RawMessage) (h : HandshakeOrdered server) :
    HandshakeOrdered (handleRequestWithUnSubscribeResourceChange J server ctx raw).2 := by
  unfold handleRequestWithUnSubscribeResourceChange
  split
  · exact h
  · simp only
    split
    · exact h
    · exact SyncMap.forall_mutate (fun s => s.ready = true → s.receiveInitRequest = true)
        _ _ _ h (fun v hv hr => h _ (SyncMap.Load_mem server.sessionID2session _ v hv) hr)

theorem dispatch_ordered (J : JsonUnmarshal) (server : Server) (c : Call)
    (h : HandshakeOrdered server) : HandshakeOrdered (dispatch J server c).2 := by
  unfold dispatch
  cases c.method <;> simp only [tagged]
  · exact handleRequestWithInitialize_ordered J server _ _ _ h
  · exact handleNotifyWithInitialized_ordered J server _ _ _ h
  · exact handleRequestWithSubscribeResourceChange_ordered J server _ _ h
  · exact handleRequestWithUnSubscribeResourceChange_ordered J server _ _ h
  · exact h
  · exact h
  · rw [handleRequestWithListPrompts_server]; exact h
  · rw [handleRequestWithGetPrompt_server]; exact h
  · rw [handleRequestWithListResources_server]; exact h
  · rw [handleRequestWithReadResource_server]; exact h
  · rw [handleRequestWitListResourceTemplates_server]; exact h
  · rw [handleRequestWithListTools_server]; exact h
  · rw [handleRequestWithCallTool_server]; exact h
  · rw [handleRequestWithCompleteRequest_server]; exact h

theorem run_ordered (J : JsonUnmarshal) (calls : List Call) :
    ∀ server : Server, HandshakeOrdered server → HandshakeOrdered (run J server calls) := by
  induction calls with
  | nil => intro server h; exact h
  | cons c rest ih => intro server h; exact ih _ (dispatch_ordered J server c h)

/-- C1: starting from a session store in which every session has
receiveInitRequest = false and ready = false, after any finite sequence of
dispatcher calls (any methods, any contexts, session ids and raw parameters)
every session in the store that is ready has received its initialize
request. -/
theorem C1_handshake_ordering (J : JsonUnmarshal) (server : Server) (calls : List Call)
    (h0 : ∀ p ∈ server.sessionID2session,
      p.2.receiveInitRequest = false ∧ p.2.ready = false) :
    ∀ p ∈ (run J server calls).sessionID2session,
      p.2.ready = true → p.2.receiveInitRequest = true :=
  run_ordered J calls server (fun p hp hr => by
    have := (h0 p hp).2
    rw [this] at hr
    cases hr)

/-- Witness of C1: session "s1" runs initialize, initialized and subscribe,
session "s2" runs initialized without initialize; "s1" ends ready. -/
theorem C1_handshake_ordering_witness :
    (∀ p ∈ (bareServer [("s1", freshSession), ("s2", freshSession)]).sessionID2session,
      p.2.receiveInitRequest = false ∧ p.2.ready = false) ∧
    (∀ p ∈ (run textUnmarshal (bareServer [("s1", freshSession), ("s2", freshSession)])
        [callOf .Initialize "s1" "client", callOf .Initialized "s2" "",
          callOf .Initialized "s1" "", callOf .Subscribe "s1" "file:///a"]).sessionID2session,
      p.2.ready = true → p.2.receiveInitRequest = true) ∧
    ((run textUnmarshal (bareServer [("s1", freshSession), ("s2", freshSession)])
        [callOf .Initialize "s1" "client", callOf .Initialized "s2" "",
          callOf .Initialized "s1" "", callOf .Subscribe "s1" "file:///a"]).sessionID2session.Load
        "s1").map (fun s => s.ready) = some true :=
  ⟨by decide,
    C1_handshake_ordering textUnmarshal
      (bareServer [("s1", freshSession), ("s2", freshSession)])
      [callOf .Initialize "s1" "client", callOf .Initialized "s2" "",
        callOf .Initialized "s1" "", callOf .Subscribe "s1" "file:///a"] (by decide),
    by decide⟩

/-! ## The initialized notification before initialize -/

/-- C2, as stated, fails: for session "s2" with receiveInitRequest = false and
the undecodable payload of one opening brace, the initialized notification
returns the decode error, not the out-of-order error. -/
theorem C2_initialized_before_initialize_counterexample :
    SyncMap.Load (bareServer [("s2", freshSession)]).sessionID2session "s2" = some freshSession ∧
    freshSession.receiveInitRequest = false ∧
    (handleNotifyWithInitialized textUnmarshal (bareServer [("s2", freshSession)])
        ⟨some "s2"⟩ "s2" "\x7b").1 = some (GoError.New "unexpected end of JSON input") ∧
    (handleNotifyWithInitialized textUnmarshal (bareServer [("s2", freshSession)])
        ⟨some "s2"⟩ "s2" "\x7b").1
      ≠ some (GoError.New "the server has not received the client's initialization request") := by
  decide

/-- C2, amended: for every session store, every session id present in the
store whose receiveInitRequest flag is false and every raw payload, the
initialized notification fails and leaves the server (every field of every
session) unchanged; the error is the out-of-order error whenever the payload
decodes, and the decode error otherwise. -/
theorem C2_initialized_before_initialize (J : JsonUnmarshal) (server : Server) (ctx : Context)
    (sessionID : String) (rawParams : RawMessage) (s : session)
    (hs : server.sessionID2session.Load sessionID = some s)
    (hrecv : s.receiveInitRequest = false) :
    (handleNotifyWithInitialized J server ctx sessionID rawParams).2 = server ∧
    (handleNotifyWithInitialized J server ctx sessionID rawParams).1 ≠ none ∧
    (∀ n, J.InitializedNotification rawParams = .ok n →
      (handleNotifyWithInitialized J server ctx sessionID rawParams).1
        = some (GoError.New
            "the server has not received the client's initialization request")) ∧
    (∀ err, J.InitializedNotification rawParams = .error err →
      (handleNotifyWithInitialized J server ctx sessionID rawParams).1 = some err) := by
  unfold handleNotifyWithInitialized
  cases hd : J.InitializedNotification rawParams with
  | error err => simp
  | ok n => simp [hs, hrecv]

/-- Witness of the amended C2: session "s2" with no prior initialize and an
empty payload. -/
theorem C2_initialized_before_initialize_witness :
    (bareServer [("s2", freshSession)]).sessionID2session.Load "s2" = some freshSession ∧
    freshSession.receiveInitRequest = false ∧
    (handleNotifyWithInitialized textUnmarshal (bareServer [("s2", freshSession)])
        ⟨some "s2"⟩ "s2" "").1
      = some (GoError.New "the server has not received the client's initialization request") ∧
    (handleNotifyWithInitialized textUnmarshal (bareServer [("s2", freshSession)])
        ⟨some "s2"⟩ "s2" "").2.sessionID2session = [("s2", freshSession)] :=
  have h := C2_initialized_before_initialize textUnmarshal (bareServer [("s2", freshSession)])
    ⟨some "s2"⟩ "s2" "" freshSession (by decide) (by decide)
  ⟨by decide, by decide, h.2.2.1 ⟨""⟩ rfl, by rw [h.1]; rfl⟩

/-! ## Initialize -/

/-- C3: for every session stored under the id of the call context and every
payload that decodes to an initialize request r, initialize succeeds; the
session is left with clientInitializeRequest = r and receiveInitRequest =
true (its other fields as before); the result is exactly the server's
protocol version, capabilities and server info, hence the same for every
other decodable request and session. -/
theorem C3_initialize_result (J : JsonUnmarshal) (server : Server) (ctx : Context)
    (sessionID : String) (rawParams : RawMessage) (r : protocol.InitializeRequest)
    (s : session) (hdec : J.InitializeRequest rawParams = .ok r)
    (hs : server.sessionID2session.Load (getSessionIDFromCtx ctx).1 = some s) :
    (handleRequestWithInitialize J server ctx sessionID rawParams).1
      = (some { ProtocolVersion := server.protocolVersion
                Capabilities := server.capabilities
                ServerInfo := server.serverInfo }, none) ∧
    (handleRequestWithInitialize J server ctx sessionID rawParams).2.sessionID2session.Load
        (getSessionIDFromCtx ctx).1
      = some { s with clientInitializeRequest := some r, receiveInitRequest := true } ∧
    (∀ (ctx2 : Context) (sessionID2 : String) (rawParams2 : RawMessage)
        (r2 : protocol.InitializeRequest) (s2 : session),
      J.InitializeRequest rawParams2 = .ok r2 →
      server.sessionID2session.Load (getSessionIDFromCtx ctx2).1 = some s2 →
      (handleRequestWithInitialize J server ctx2 sessionID2 rawParams2).1
        = (handleRequestWithInitialize J server ctx sessionID rawParams).1) := by
  have key : ∀ (ctx2 : Context) (sessionID2 : String) (rawParams2 : RawMessage)
      (r2 : protocol.InitializeRequest) (s2 : session),
      J.InitializeRequest rawParams2 = .ok r2 →
      server.sessionID2session.Load (getSessionIDFromCtx ctx2).1 = some s2 →
      (handleRequestWithInitialize J server ctx2 sessionID2 rawParams2).1
          = (some { ProtocolVersion := server.protocolVersion
                    Capabilities := server.capabilities
                    ServerInfo := server.serverInfo }, none) ∧
      (handleRequestWithInitialize J server ctx2 sessionID2
          rawParams2).2.sessionID2session.Load (getSessionIDFromCtx ctx2).1
        = some { s2 with clientInitializeRequest := some r2, receiveInitRequest := true } := by
    intro ctx2 sessionID2 rawParams2 r2 s2 hdec2 hs2
    unfold handleRequestWithInitialize
    simp [hdec2, hs2, SyncMap.Load_mutate]
  refine ⟨(key ctx sessionID rawParams r s hdec hs).1, (key ctx sessionID rawParams r s hdec hs).2,
    ?_⟩
  intro ctx2 sessionID2 rawParams2 r2 s2 hdec2 hs2
  rw [(key ctx2 sessionID2 rawParams2 r2 s2 hdec2 hs2).1, (key ctx sessionID rawParams r s hdec hs).1]

/-- Witness of C3: session "s1" initializes with the payload "client". -/
theorem C3_initialize_result_witness :
    textUnmarshal.InitializeRequest "client" = .ok ⟨"client"⟩ ∧
    (bareServer [("s1", freshSession)]).sessionID2session.Load
        (getSessionIDFromCtx ⟨some "s1"⟩).1 = some freshSession ∧
    (handleRequestWithInitialize textUnmarshal (bareServer [("s1", freshSession)])
        ⟨some "s1"⟩ "s1" "client").1
      = (some { ProtocolVersion := "2024-11-05", Capabilities := ⟨"caps"⟩,
                ServerInfo := ⟨"go-mcp"⟩ }, none) ∧
    (handleRequestWithInitialize textUnmarshal (bareServer [("s1", freshSession)])
        ⟨some "s1"⟩ "s1" "client").2.sessionID2session.Load "s1"
      = some { clientInitializeRequest := some ⟨"client"⟩, receiveInitRequest := true,
               ready := false, subscribedResources := ∅ } :=
  have h := C3_initialize_result textUnmarshal (bareServer [("s1", freshSession)])
    ⟨some "s1"⟩ "s1" "client" ⟨"client"⟩ freshSession rfl (by decide)
  ⟨rfl, by decide, h.1, h.2.1⟩

/-! ## Unknown session ids -/

/-- C4, as stated, fails: ping for the session id "ghost", absent from the
(empty) session store, succeeds with the ping result instead of returning
ErrLackSession. -/
theorem C4_unknown_session_counterexample :
    (bareServer []).sessionID2session.Load "ghost" = none ∧
    (dispatch textUnmarshal (bareServer []) (callOf .Ping "ghost" "")).1
      = (some (Result.Ping protocol.NewPingResponse), none) ∧
    (dispatch textUnmarshal (bareServer []) (callOf .Ping "ghost" "")).1.2
      ≠ some GoError.ErrLackSession := by
  decide

/-- C4, amended: for every method, every payload and every call whose session
id (in the context and in the argument) is absent from the session store, the
server is left unchanged; for initialize, initialized, subscribe and
unsubscribe the call returns no result and the error ErrLackSession when the
payload decodes, and the decode error when it does not. -/
theorem C4_unknown_session (J : JsonUnmarshal) (server : Server) (c : Call)
    (hctx : server.sessionID2session.Load (getSessionIDFromCtx c.ctx).1 = none)
    (harg : server.sessionID2session.Load c.sessionID = none) :
    (dispatch J server c).2 = server ∧
    (c.method.sessionAffecting = true →
      (dispatch J server c).1
        = (none, some ((decodeError J c.method c.rawParams).getD GoError.ErrLackSession))) := by
  obtain ⟨method, ctx, sessionID, rawParams⟩ := c
  simp only at hctx harg
  cases method <;> simp only [dispatch, tagged, Method.sessionAffecting, decodeError]
  · unfold handleRequestWithInitialize
    cases hd : J.InitializeRequest rawParams <;> simp [hctx, errorOf]
  · unfold handleNotifyWithInitialized
    cases hd : J.InitializedNotification rawParams <;> simp [harg, errorOf]
  · unfold handleRequestWithSubscribeResourceChange
    cases hd : J.SubscribeRequest rawParams <;> simp [hctx, errorOf]
  · unfold handleRequestWithUnSubscribeResourceChange
    cases hd : J.UnsubscribeRequest rawParams <;> simp [hctx, errorOf]
  · simp [handleRequestWithSetLogLevel]
  · simp [handleRequestWithPing]
  · simp [handleRequestWithListPrompts_server]
  · simp [handleRequestWithGetPrompt_server]
  · simp [handleRequestWithListResources_server]
  · simp [handleRequestWithReadResource_server]
  · simp [handleRequestWitListResourceTemplates_server]
  · simp [handleRequestWithListTools_server]
  · simp [handleRequestWithCallTool_server]
  · simp [handleRequestWithCompleteRequest_server]

/-- Witness of the amended C4: subscribe for the session id "ghost" on a store
that only holds "s1". -/
theorem C4_unknown_session_witness :
    (bareServer [("s1", freshSession)]).sessionID2session.Load
        (getSessionIDFromCtx (callOf .Subscribe "ghost" "file:///a").ctx).1 = none ∧
    (dispatch textUnmarshal (bareServer [("s1", freshSession)])
        (callOf .Subscribe "ghost" "file:///a")).1 = (none, some GoError.ErrLackSession) ∧
    (dispatch textUnmarshal (bareServer [("s1", freshSession)])
        (callOf .Subscribe "ghost" "file:///a")).2.sessionID2session
      = [("s1", freshSession)] :=
  have h := C4_unknown_session textUnmarshal (bareServer [("s1", freshSession)])
    (callOf .Subscribe "ghost" "file:///a") (by decide) (by decide)
  ⟨by decide, h.2 rfl, by rw [h.1]; rfl⟩

/-! ## Decode failures -/

/-- C5: for initialize, initialized, subscribe and unsubscribe, every server
state and every raw payload that the decoder of the method rejects with an
error, the handler returns that decode error (and no result) and the server,
hence every field of every session, is the same as before the call. -/
theorem C5_decode_failure (J : JsonUnmarshal) (server : Server) (ctx : Context)
    (sessionID : String) (rawParams : RawMessage) (err : GoError) :
    (J.InitializeRequest rawParams = .error err →
      handleRequestWithInitialize J server ctx sessionID rawParams
        = ((none, some err), server)) ∧
    (J.InitializedNotification rawParams = .error err →
      handleNotifyWithInitialized J server ctx sessionID rawParams = (some err, server)) ∧
    (J.SubscribeRequest rawParams = .error err →
      handleRequestWithSubscribeResourceChange J server ctx rawParams
        = ((none, some err), server)) ∧
    (J.UnsubscribeRequest rawParams = .error err →
      handleRequestWithUnSubscribeResourceChange J server ctx rawParams
        = ((none, some err), server)) := by
  refine ⟨?_, ?_, ?_, ?_⟩
  · intro h; unfold handleRequestWithInitialize; simp [h]
  · intro h; unfold handleNotifyWithInitialized; simp [h]
  · intro h; unfold handleRequestWithSubscribeResourceChange; simp [h]
  · intro h; unfold handleRequestWithUnSubscribeResourceChange; simp [h]

/-- Witness of C5: the payload of one opening brace, sent by the initialized
session "s1" to each of the four handlers. -/
theorem C5_decode_failure_witness :
    handleRequestWithInitialize textUnmarshal
        (bareServer [("s1", { freshSession with receiveInitRequest := true })])
        ⟨some "s1"⟩ "s1" "\x7b"
      = ((none, some (GoError.New "unexpected end of JSON input")),
          bareServer [("s1", { freshSession with receiveInitRequest := true })]) ∧
    handleNotifyWithInitialized textUnmarshal
        (bareServer [("s1", { freshSession with receiveInitRequest := true })])
        ⟨some "s1"⟩ "s1" "\x7b"
      = (some (GoError.New "unexpected end of JSON input"),
          bareServer [("s1", { freshSession with receiveInitRequest := true })]) ∧
    handleRequestWithSubscribeResourceChange textUnmarshal
        (bareServer [("s1", { freshSession with receiveInitRequest := true })])
        ⟨some "s1"⟩ "\x7b"
      = ((none, some (GoError.New "unexpected end of JSON input")),
          bareServer [("s1", { freshSession with receiveInitRequest := true })]) ∧
    handleRequestWithUnSubscribeResourceChange textUnmarshal
        (bareServer [("s1", { freshSession with receiveInitRequest := true })])
        ⟨some "s1"⟩ "\x7b"
      = ((none, some (GoError.New "unexpected end of JSON input")),
          bareServer [("s1", { freshSession with receiveInitRequest := true })]) :=
  have h := C5_decode_failure textUnmarshal
    (bareServer [("s1", { freshSession with receiveInitRequest := true })])
    ⟨some "s1"⟩ "s1" "\x7b" (GoError.New "unexpected end of JSON input")
  ⟨h.1 rfl, h.2.1 rfl, h.2.2.1 rfl, h.2.2.2 rfl⟩

/-! ## Tool calls -/

/-- C6: for every tool registry and every payload that decodes to a call-tool
request: if the tool name is not a key of the registry, the handler fails with
the error "missing tool call handler, toolName=" followed by the name and the
server (the registry included) is unchanged; if it is a key, the handler
returns exactly the pair that the handler function registered under that name
returns on the decoded request. -/
theorem C6_call_tool (J : JsonUnmarshal) (server : Server) (ctx : Context)
    (rawParams : RawMessage) (request : protocol.CallToolRequest)
    (hdec : J.CallToolRequest rawParams = .ok request) :
    (server.toolHandlers request.Name = none →
      handleRequestWithCallTool J server ctx rawParams
        = ((none, some (GoError.New ("missing tool call handler, toolName=" ++ request.Name))),
            server)) ∧
    (∀ handlerFunc, server.toolHandlers request.Name = some handlerFunc →
      handleRequestWithCallTool J server ctx rawParams = (handlerFunc request, server)) := by
  constructor
  · intro h; unfold handleRequestWithCallTool; simp [hdec, h]
  · intro handlerFunc h; unfold handleRequestWithCallTool; simp [hdec, h]

/-- Witness of C6: the tool "sum" is called; without a handler the call fails
naming "sum", and with handlers registered for "sum" and "echo" it returns the
output of the handler of "sum". -/
theorem C6_call_tool_witness :
    textUnmarshal.CallToolRequest "sum" = .ok ⟨"sum", ""⟩ ∧
    (handleRequestWithCallTool textUnmarshal (bareServer []) ⟨some "s1"⟩ "sum").1
      = (none, some (GoError.New "missing tool call handler, toolName=sum")) ∧
    (handleRequestWithCallTool textUnmarshal (bareServer []) ⟨some "s1"⟩ "sum").2.toolHandlers
        "sum" = none ∧
    (handleRequestWithCallTool textUnmarshal
        { bareServer [] with toolHandlers := sumAndEcho } ⟨some "s1"⟩ "sum").1
      = (some ⟨"sum result"⟩, none) :=
  have h0 := C6_call_tool textUnmarshal (bareServer []) ⟨some "s1"⟩ "sum" ⟨"sum", ""⟩ rfl
  have h1 := C6_call_tool textUnmarshal { bareServer [] with toolHandlers := sumAndEcho }
    ⟨some "s1"⟩ "sum" ⟨"sum", ""⟩ rfl
  ⟨rfl, by rw [h0.1 rfl]; decide, by rw [h0.1 rfl]; rfl,
    by rw [h1.2 (fun _ => (some ⟨"sum result"⟩, none)) rfl]⟩

/-! ## Completion -/

/-- C7: for every payload that decodes to a complete request whose reference
is neither a prompt reference nor a resource reference, complete fails with
the error "invalid complete request" and leaves the server unchanged, and it
does so for every content of the completion registry. -/
theorem C7_invalid_completion_reference (J : JsonUnmarshal) (server : Server) (ctx : Context)
    (rawParams : RawMessage) (request : protocol.CompleteRequest)
    (hdec : J.CompleteRequest rawParams = .ok request)
    (hprompt : ∀ type name, request.ref ≠ protocol.Ref.PromptReference type name)
    (hresource : ∀ type uri, request.ref ≠ protocol.Ref.ResourceReference type uri) :
    handleRequestWithCompleteRequest J server ctx rawParams
      = ((none, some (GoError.New "invalid complete request")), server) ∧
    (∀ registry : String → Option (protocol.CompleteRequest → Ret protocol.CompleteResult),
      (handleRequestWithCompleteRequest J { server with completionHandlers := registry } ctx
          rawParams).1
        = (none, some (GoError.New "invalid complete request"))) := by
  have hname : handerName request.ref = .error (GoError.New "invalid complete request") := by
    cases hr : request.ref with
    | PromptReference type name => exact absurd hr (hprompt type name)
    | ResourceReference type uri => exact absurd hr (hresource type uri)
    | other d => rfl
  constructor
  · unfold handleRequestWithCompleteRequest; simp [hdec, hname]
  · intro registry; unfold handleRequestWithCompleteRequest; simp [hdec, hname]

/-- Witness of C7: the payload "tool" decodes to a reference of another
dynamic type; the call fails in the same way with and without a registered
completion handler. -/
theorem C7_invalid_completion_reference_witness :
    textUnmarshal.CompleteRequest "tool" = .ok ⟨.other "tool", ""⟩ ∧
    handleRequestWithCompleteRequest textUnmarshal (bareServer []) ⟨some "s1"⟩ "tool"
      = ((none, some (GoError.New "invalid complete request")), bareServer []) ∧
    (handleRequestWithCompleteRequest textUnmarshal
        { bareServer [] with completionHandlers := greetCompletion } ⟨some "s1"⟩ "tool").1
      = (none, some (GoError.New "invalid complete request")) :=
  have h := C7_invalid_completion_reference textUnmarshal (bareServer []) ⟨some "s1"⟩ "tool"
    ⟨.other "tool", ""⟩ rfl (fun _ _ hr => by cases hr) (fun _ _ hr => by cases hr)
  ⟨rfl, h.1, h.2 greetCompletion⟩

/-- C8: for every payload that decodes to a complete request, the lookup key
of a prompt reference (tag t, name n) is t ++ "/" ++ n and that of a resource
reference (tag t, URI u) is t ++ "/" ++ u; if the key is in the completion
registry the handler returns exactly what the handler function registered
under the key returns on the request, otherwise it fails with the error
"missing complete handler, name=" followed by the key. -/
theorem C8_completion_key (J : JsonUnmarshal) (server : Server) (ctx : Context)
    (rawParams : RawMessage) (request : protocol.CompleteRequest) (t x : String)
    (hdec : J.CompleteRequest rawParams = .ok request)
    (href : request.ref = protocol.Ref.PromptReference t x ∨
      request.ref = protocol.Ref.ResourceReference t x) :
    handerName request.ref = .ok (t ++ "/" ++ x) ∧
    (∀ handlerFunc, server.completionHandlers (t ++ "/" ++ x) = some handlerFunc →
      handleRequestWithCompleteRequest J server ctx rawParams = (handlerFunc request, server)) ∧
    (server.completionHandlers (t ++ "/" ++ x) = none →
      handleRequestWithCompleteRequest J server ctx rawParams
        = ((none, some (GoError.New ("missing complete handler, name=" ++ (t ++ "/" ++ x)))),
            server)) := by
  have hname : handerName request.ref = .ok (t ++ "/" ++ x) := by
    rcases href with h | h <;> rw [h] <;> rfl
  refine ⟨hname, ?_, ?_⟩
  · intro handlerFunc h; unfold handleRequestWithCompleteRequest; simp [hdec, hname, h]
  · intro h; unfold handleRequestWithCompleteRequest; simp [hdec, hname, h]

/-- Witness of C8: the prompt reference ("ref/prompt", "greet") resolves to
the handler registered under "ref/prompt/greet"; the resource reference
("ref/resource", "file:///a") has no handler and the error names its key. -/
theorem C8_completion_key_witness :
    textUnmarshal.CompleteRequest "prompt" = .ok ⟨.PromptReference "ref/prompt" "greet", ""⟩ ∧
    (handleRequestWithCompleteRequest textUnmarshal
        { bareServer [] with completionHandlers := greetCompletion } ⟨some "s1"⟩ "prompt").1
      = (some ⟨"hello"⟩, none) ∧
    (handleRequestWithCompleteRequest textUnmarshal
        { bareServer [] with completionHandlers := greetCompletion } ⟨some "s1"⟩ "resource").1
      = (none, some (GoError.New "missing complete handler, name=ref/resource/file:///a")) :=
  have h1 := C8_completion_key textUnmarshal
    { bareServer [] with completionHandlers := greetCompletion } ⟨some "s1"⟩ "prompt"
    ⟨.PromptReference "ref/prompt" "greet", ""⟩ "ref/prompt" "greet" rfl (Or.inl rfl)
  have h2 := C8_completion_key textUnmarshal
    { bareServer [] with completionHandlers := greetCompletion } ⟨some "s1"⟩ "resource"
    ⟨.ResourceReference "ref/resource" "file:///a", ""⟩ "ref/resource" "file:///a" rfl
    (Or.inr rfl)
  ⟨rfl, by rw [h1.2.1 (fun _ => (some ⟨"hello"⟩, none)) rfl],
    by rw [h2.2.2 rfl]; decide⟩

/-! ## Subscriptions -/

theorem handleRequestWithSubscribeResourceChange_found (J : JsonUnmarshal) (server : Server)
    (ctx : Context) (rawParams : RawMessage) (u : String) (s : session)
    (hdec : J.SubscribeRequest rawParams = .ok ⟨u⟩)
    (hs : server.sessionID2session.Load (getSessionIDFromCtx ctx).1 = some s) :
    handleRequestWithSubscribeResourceChange J server ctx rawParams
      = ((some {}, none),
          { server with
            sessionID2session := server.sessionID2session.mutate (getSessionIDFromCtx ctx).1
              (fun s => { s with subscribedResources := s.subscribedResources.Set u }) }) := by
  unfold handleRequestWithSubscribeResourceChange
  simp [hdec, hs]

theorem handleRequestWithUnSubscribeResourceChange_found (J : JsonUnmarshal) (server : Server)
    (ctx : Context) (rawParams : RawMessage) (u : String) (s : session)
    (hdec : J.UnsubscribeRequest rawParams = .ok ⟨u⟩)
    (hs : server.sessionID2session.Load (getSessionIDFromCtx ctx).1 = some s) :
    handleRequestWithUnSubscribeResourceChange J server ctx rawParams
      = ((some {}, none),
          { server with
            sessionID2session := server.sessionID2session.mutate (getSessionIDFromCtx ctx).1
              (fun s => { s with subscribedResources := s.subscribedResources.Remove u }) }) := by
  unfold handleRequestWithUnSubscribeResourceChange
  simp [hdec, hs]

/-- C9: for every session s stored under the id of the call context and every
resource URI u, two subscribe calls for u both succeed and leave exactly the
server that a single subscribe for u leaves; in it the session is s with u
added to its subscription set, where u occurs exactly once and the other
members are those present before. -/
theorem C9_subscribe_idempotent (J : JsonUnmarshal) (server : Server) (ctx : Context)
    (raw1 raw2 : RawMessage) (u : String) (s : session)
    (hdec1 : J.SubscribeRequest raw1 = .ok ⟨u⟩) (hdec2 : J.SubscribeRequest raw2 = .ok ⟨u⟩)
    (hs : server.sessionID2session.Load (getSessionIDFromCtx ctx).1 = some s) :
    (handleRequestWithSubscribeResourceChange J server ctx raw1).1 = (some {}, none) ∧
    (handleRequestWithSubscribeResourceChange J
        (handleRequestWithSubscribeResourceChange J server ctx raw1).2 ctx raw2).1
      = (some {}, none) ∧
    (handleRequestWithSubscribeResourceChange J
        (handleRequestWithSubscribeResourceChange J server ctx raw1).2 ctx raw2).2
      = (handleRequestWithSubscribeResourceChange J server ctx raw1).2 ∧
    (∃ s1 : session,
      (handleRequestWithSubscribeResourceChange J server ctx
          raw1).2.sessionID2session.Load (getSessionIDFromCtx ctx).1 = some s1 ∧
      s1 = { s with subscribedResources := insert u s.subscribedResources } ∧
      u ∈ s1.subscribedResources ∧
      Multiset.count u s1.subscribedResources.val = 1 ∧
      ∀ v, v ≠ u → (v ∈ s1.subscribedResources ↔ v ∈ s.subscribedResources)) := by
  have h1 := handleRequestWithSubscribeResourceChange_found J server ctx raw1 u s hdec1 hs
  have hs1 : (handleRequestWithSubscribeResourceChange J server ctx
      raw1).2.sessionID2session.Load (getSessionIDFromCtx ctx).1
      = some { s with subscribedResources := insert u s.subscribedResources } := by
    rw [h1]
    simp [SyncMap.Load_mutate, hs, SubscribedResources.Set]
  have h2 := handleRequestWithSubscribeResourceChange_found J
    (handleRequestWithSubscribeResourceChange J server ctx raw1).2 ctx raw2 u _ hdec2 hs1
  refine ⟨by rw [h1], by rw [h2], ?_, _, hs1, rfl, ?_, ?_, ?_⟩
  · rw [h2, h1]
    simp only [SyncMap.mutate_mutate]
    congr 2
    funext s0
    simp [SubscribedResources.Set]
  · simp
  · exact Multiset.count_eq_one_of_mem (insert u s.subscribedResources).nodup (by simp)
  · intro v hv
    simp [hv]

/-- Witness of C9: session "s1", already subscribed to "file:///b",
subscribes twice to "file:///a". -/
theorem C9_subscribe_idempotent_witness :
    (bareServer [("s1", { freshSession with subscribedResources := {"file:///b"} })]
      ).sessionID2session.Load (getSessionIDFromCtx ⟨some "s1"⟩).1
      = some { freshSession with subscribedResources := {"file:///b"} } ∧
    (handleRequestWithSubscribeResourceChange textUnmarshal
        (handleRequestWithSubscribeResourceChange textUnmarshal
          (bareServer [("s1", { freshSession with subscribedResources := {"file:///b"} })])
          ⟨some "s1"⟩ "file:///a").2 ⟨some "s1"⟩ "file:///a").2
      = (handleRequestWithSubscribeResourceChange textUnmarshal
          (bareServer [("s1", { freshSession with subscribedResources := {"file:///b"} })])
          ⟨some "s1"⟩ "file:///a").2 ∧
    (handleRequestWithSubscribeResourceChange textUnmarshal
        (handleRequestWithSubscribeResourceChange textUnmarshal
          (bareServer [("s1", { freshSession with subscribedResources := {"file:///b"} })])
          ⟨some "s1"⟩ "file:///a").2 ⟨some "s1"⟩ "file:///a").2.sessionID2session
      = [("s1", { freshSession with subscribedResources := {"file:///a", "file:///b"} })] :=
  have h := C9_subscribe_idempotent textUnmarshal
    (bareServer [("s1", { freshSession with subscribedResources := {"file:///b"} })])
    ⟨some "s1"⟩ "file:///a" "file:///a" "file:///a"
    { freshSession with subscribedResources := {"file:///b"} } rfl rfl (by decide)
  ⟨by decide, h.2.2.1, by decide⟩

/-- C10: for every session s stored under the id of the call context and
every resource URI u: if u is not in the subscription set of s, unsubscribe of
u succeeds and leaves the whole server (the subscription set of s included)
unchanged; and for any u a second unsubscribe of u succeeds and yields the
same server as the first. -/
theorem C10_unsubscribe_absent (J : JsonUnmarshal) (server : Server) (ctx : Context)
    (raw1 raw2 : RawMessage) (u : String) (s : session)
    (hdec1 : J.UnsubscribeRequest raw1 = .ok ⟨u⟩) (hdec2 : J.UnsubscribeRequest raw2 = .ok ⟨u⟩)
    (hs : server.sessionID2session.Load (getSessionIDFromCtx ctx).1 = some s) :
    (u ∉ s.subscribedResources →
      handleRequestWithUnSubscribeResourceChange J server ctx raw1
        = ((some {}, none), server)) ∧
    (handleRequestWithUnSubscribeResourceChange J server ctx raw1).1 = (some {}, none) ∧
    handleRequestWithUnSubscribeResourceChange J
        (handleRequestWithUnSubscribeResourceChange J server ctx raw1).2 ctx raw2
      = ((some {}, none), (handleRequestWithUnSubscribeResourceChange J server ctx raw1).2) := by
  have h1 := handleRequestWithUnSubscribeResourceChange_found J server ctx raw1 u s hdec1 hs
  have hs1 : (handleRequestWithUnSubscribeResourceChange J server ctx
      raw1).2.sessionID2session.Load (getSessionIDFromCtx ctx).1
      = some { s with subscribedResources := s.subscribedResources.erase u } := by
    rw [h1]
    simp [SyncMap.Load_mutate, hs, SubscribedResources.Remove]
  have h2 := handleRequestWithUnSubscribeResourceChange_found J
    (handleRequestWithUnSubscribeResourceChange J server ctx raw1).2 ctx raw2 u _ hdec2 hs1
  refine ⟨?_, by rw [h1], ?_⟩
  · intro hu
    rw [h1]
    have hfix : server.sessionID2session.mutate (getSessionIDFromCtx ctx).1
        (fun s => { s with subscribedResources := s.subscribedResources.Remove u })
        = server.sessionID2session :=
      SyncMap.mutate_of_fix _ _ _ (fun v hv => by
        rw [hs] at hv
        cases hv
        simp [SubscribedResources.Remove, Finset.erase_eq_of_not_mem hu])
    rw [hfix]
  · rw [h2]
    congr 1
    rw [h1]
    simp only [SyncMap.mutate_mutate]
    congr 2
    funext s0
    simp [SubscribedResources.Remove]

/-- Witness of C10: session "s1", subscribed to "file:///b" only,
unsubscribes from "file:///a". -/
theorem C10_unsubscribe_absent_witness :
    (bareServer [("s1", { freshSession with subscribedResources := {"file:///b"} })]
      ).sessionID2session.Load (getSessionIDFromCtx ⟨some "s1"⟩).1
      = some { freshSession with subscribedResources := {"file:///b"} } ∧
    "file:///a" ∉ ({"file:///b"} : Finset String) ∧
    handleRequestWithUnSubscribeResourceChange textUnmarshal
        (bareServer [("s1", { freshSession with subscribedResources := {"file:///b"} })])
        ⟨some "s1"⟩ "file:///a"
      = ((some {}, none),
          bareServer [("s1", { freshSession with subscribedResources := {"file:///b"} })]) :=
  have h := C10_unsubscribe_absent textUnmarshal
    (bareServer [("s1", { freshSession with subscribedResources := {"file:///b"} })])
    ⟨some "s1"⟩ "file:///a" "file:///a" "file:///a"
    { freshSession with subscribedResources := {"file:///b"} } rfl rfl (by decide)
  ⟨by decide, by decide, h.1 (by decide)⟩

/-! ## The handshake, step by step -/

theorem handleRequestWithInitialize_found (J : JsonUnmarshal) (server : Server) (ctx : Context)
    (sessionID : String) (rawParams : RawMessage) (r : protocol.InitializeRequest)
    (s : session) (hdec : J.InitializeRequest rawParams = .ok r)
    (hs : server.sessionID2session.Load (getSessionIDFromCtx ctx).1 = some s) :
    handleRequestWithInitialize J server ctx sessionID rawParams
      = ((some { ProtocolVersion := server.protocolVersion
                 Capabilities := server.capabilities
                 ServerInfo := server.serverInfo }, none),
          { server with
            sessionID2session := server.sessionID2session.mutate (getSessionIDFromCtx ctx).1
              (fun s => { s with clientInitializeRequest := some r,
                                 receiveInitRequest := true }) }) := by
  unfold handleRequestWithInitialize
  simp [hdec, hs, SyncMap.Load_mutate, SyncMap.mutate_mutate]

theorem handleNotifyWithInitialized_found (J : JsonUnmarshal) (server : Server) (ctx : Context)
    (sessionID : String) (rawParams : RawMessage) (n : protocol.InitializedNotification)
    (s : session) (hdec : J.InitializedNotification rawParams = .ok n)
    (hs : server.sessionID2session.Load sessionID = some s)
    (hrecv : s.receiveInitRequest = true) :
    handleNotifyWithInitialized J server ctx sessionID rawParams
      = (none,
          { server with
            sessionID2session := server.sessionID2session.mutate sessionID
              (fun s => { s with ready := true }) }) := by
  unfold handleNotifyWithInitialized
  simp [hdec, hs, hrecv]

/-- C11: for every session stored under an id with an empty subscription set
(in particular a fresh one, with both flags false), and every URI u:
initialize succeeds and sets receiveInitRequest; then initialized succeeds
and sets ready; then subscribe
of u succeeds and the subscription set is exactly the singleton of u; then
unsubscribe of u succeeds and the subscription set is empty again. In general,
on any server and for any session not subscribed to u, unsubscribe of u after
subscribe of u gives back the server that held before the subscribe. -/
theorem C11_lifecycle (J : JsonUnmarshal) (server : Server) (id : String)
    (rawInit rawNote rawSub rawUnsub : RawMessage) (r : protocol.InitializeRequest)
    (n : protocol.InitializedNotification) (u : String) (s : session)
    (hs : server.sessionID2session.Load id = some s)
    (hsubs : s.subscribedResources = ∅)
    (hinit : J.InitializeRequest rawInit = .ok r)
    (hnote : J.InitializedNotification rawNote = .ok n)
    (hsub : J.SubscribeRequest rawSub = .ok ⟨u⟩)
    (hunsub : J.UnsubscribeRequest rawUnsub = .ok ⟨u⟩) :
    ((dispatch J server (callOf .Initialize id rawInit)).1.1.isSome = true ∧
      (dispatch J server (callOf .Initialize id rawInit)).1.2 = none ∧
      (run J server [callOf .Initialize id rawInit]).sessionID2session.Load id
        = some { s with clientInitializeRequest := some r, receiveInitRequest := true }) ∧
    ((dispatch J (run J server [callOf .Initialize id rawInit])
        (callOf .Initialized id rawNote)).1 = (none, none) ∧
      (run J server [callOf .Initialize id rawInit,
          callOf .Initialized id rawNote]).sessionID2session.Load id
        = some { s with clientInitializeRequest := some r, receiveInitRequest := true,
                        ready := true }) ∧
    ((dispatch J (run J server [callOf .Initialize id rawInit, callOf .Initialized id rawNote])
        (callOf .Subscribe id rawSub)).1 = (some (Result.Subscribe {}), none) ∧
      (run J server [callOf .Initialize id rawInit, callOf .Initialized id rawNote,
          callOf .Subscribe id rawSub]).sessionID2session.Load id
        = some { s with clientInitializeRequest := some r, receiveInitRequest := true,
                        ready := true, subscribedResources := {u} }) ∧
    ((dispatch J (run J server [callOf .Initialize id rawInit, callOf .Initialized id rawNote,
          callOf .Subscribe id rawSub])
        (callOf .Unsubscribe id rawUnsub)).1 = (some (Result.Unsubscribe {}), none) ∧
      (run J server [callOf .Initialize id rawInit, callOf .Initialized id rawNote,
          callOf .Subscribe id rawSub,
          callOf .Unsubscribe id rawUnsub]).sessionID2session.Load id
        = some { s with clientInitializeRequest := some r, receiveInitRequest := true,
                        ready := true, subscribedResources := ∅ }) ∧
    (∀ (server0 : Server) (ctx : Context) (s0 : session),
      server0.sessionID2session.Load (getSessionIDFromCtx ctx).1 = some s0 →
      u ∉ s0.subscribedResources →
      (handleRequestWithUnSubscribeResourceChange J
          (handleRequestWithSubscribeResourceChange J server0 ctx rawSub).2 ctx rawUnsub).2
        = server0) := by
  have hs0 : server.sessionID2session.Load (getSessionIDFromCtx ⟨some id⟩).1 = some s := hs
  have e1 := handleRequestWithInitialize_found J server ⟨some id⟩ id rawInit r s hinit hs0
  have l1 : (run J server [callOf .Initialize id rawInit]).sessionID2session.Load id
      = some { s with clientInitializeRequest := some r, receiveInitRequest := true } := by
    simp only [run, dispatch, callOf, tagged, e1]
    simp [SyncMap.Load_mutate, hs, getSessionIDFromCtx]
  have e2 := handleNotifyWithInitialized_found J (run J server [callOf .Initialize id rawInit])
    ⟨some id⟩ id rawNote n _ hnote l1 rfl
  have l2 : (run J server [callOf .Initialize id rawInit,
      callOf .Initialized id rawNote]).sessionID2session.Load id
      = some { s with clientInitializeRequest := some r, receiveInitRequest := true,
                      ready := true } := by
    have : run J server [callOf .Initialize id rawInit, callOf .Initialized id rawNote]
        = (handleNotifyWithInitialized J (run J server [callOf .Initialize id rawInit])
            ⟨some id⟩ id rawNote).2 := rfl
    rw [this, e2]
    simp [SyncMap.Load_mutate, l1]
  have e3 := handleRequestWithSubscribeResourceChange_found J
    (run J server [callOf .Initialize id rawInit, callOf .Initialized id rawNote])
    ⟨some id⟩ rawSub u _ hsub l2
  have l3 : (run J server [callOf .Initialize id rawInit, callOf .Initialized id rawNote,
      callOf .Subscribe id rawSub]).sessionID2session.Load id
      = some { s with clientInitializeRequest := some r, receiveInitRequest := true,
                      ready := true, subscribedResources := {u} } := by
    have : run J server [callOf .Initialize id rawInit, callOf .Initialized id rawNote,
        callOf .Subscribe id rawSub]
        = (handleRequestWithSubscribeResourceChange J
            (run J server [callOf .Initialize id rawInit, callOf .Initialized id rawNote])
            ⟨some id⟩ rawSub).2 := rfl
    rw [this, e3]
    simp [SyncMap.Load_mutate, l2, SubscribedResources.Set, hsubs, getSessionIDFromCtx]
  have e4 := handleRequestWithUnSubscribeResourceChange_found J
    (run J server [callOf .Initialize id rawInit, callOf .Initialized id rawNote,
      callOf .Subscribe id rawSub])
    ⟨some id⟩ rawUnsub u _ hunsub l3
  have l4 : (run J server [callOf .Initialize id rawInit, callOf .Initialized id rawNote,
      callOf .Subscribe id rawSub, callOf .Unsubscribe id rawUnsub]).sessionID2session.Load id
      = some { s with clientInitializeRequest := some r, receiveInitRequest := true,
                      ready := true, subscribedResources := ∅ } := by
    have : run J server [callOf .Initialize id rawInit, callOf .Initialized id rawNote,
        callOf .Subscribe id rawSub, callOf .Unsubscribe id rawUnsub]
        = (handleRequestWithUnSubscribeResourceChange J
            (run J server [callOf .Initialize id rawInit, callOf .Initialized id rawNote,
              callOf .Subscribe id rawSub])
            ⟨some id⟩ rawUnsub).2 := rfl
    rw [this, e4]
    simp [SyncMap.Load_mutate, l3, SubscribedResources.Remove, getSessionIDFromCtx]
  refine ⟨⟨?_, ?_, l1⟩, ⟨?_, l2⟩, ⟨?_, l3⟩, ⟨?_, l4⟩, ?_⟩
  · simp only [dispatch, callOf, tagged, e1]; rfl
  · simp only [dispatch, callOf, tagged, e1]
  · have : (dispatch J (run J server [callOf .Initialize id rawInit])
        (callOf .Initialized id rawNote)).1
        = (none, (handleNotifyWithInitialized J (run J server [callOf .Initialize id rawInit])
            ⟨some id⟩ id rawNote).1) := rfl
    rw [this, e2]
  · have : (dispatch J
        (run J server [callOf .Initialize id rawInit, callOf .Initialized id rawNote])
        (callOf .Subscribe id rawSub)).1
        = ((handleRequestWithSubscribeResourceChange J
            (run J server [callOf .Initialize id rawInit, callOf .Initialized id rawNote])
            ⟨some id⟩ rawSub).1.1.map Result.Subscribe,
          (handleRequestWithSubscribeResourceChange J
            (run J server [callOf .Initialize id rawInit, callOf .Initialized id rawNote])
            ⟨some id⟩ rawSub).1.2) := rfl
    rw [this, e3]; rfl
  · have : (dispatch J
        (run J server [callOf .Initialize id rawInit, callOf .Initialized id rawNote,
          callOf .Subscribe id rawSub])
        (callOf .Unsubscribe id rawUnsub)).1
        = ((handleRequestWithUnSubscribeResourceChange J
            (run J server [callOf .Initialize id rawInit, callOf .Initialized id rawNote,
              callOf .Subscribe id rawSub])
            ⟨some id⟩ rawUnsub).1.1.map Result.Unsubscribe,
          (handleRequestWithUnSubscribeResourceChange J
            (run J server [callOf .Initialize id rawInit, callOf .Initialized id rawNote,
              callOf .Subscribe id rawSub])
            ⟨some id⟩ rawUnsub).1.2) := rfl
    rw [this, e4]; rfl
  · intro server0 ctx s0 hs0 hu
    have f1 := handleRequestWithSubscribeResourceChange_found J server0 ctx rawSub u s0 hsub hs0
    have hl : (handleRequestWithSubscribeResourceChange J server0 ctx
        rawSub).2.sessionID2session.Load (getSessionIDFromCtx ctx).1
        = some { s0 with subscribedResources := insert u s0.subscribedResources } := by
      rw [f1]
      simp [SyncMap.Load_mutate, hs0, SubscribedResources.Set]
    have f2 := handleRequestWithUnSubscribeResourceChange_found J
      (handleRequestWithSubscribeResourceChange J server0 ctx rawSub).2 ctx rawUnsub u _
      hunsub hl
    rw [f2, f1]
    simp only [SyncMap.mutate_mutate]
    have hfix : server0.sessionID2session.mutate (getSessionIDFromCtx ctx).1
        (fun s =>
          { s with
            subscribedResources :=
              (SubscribedResources.Set s.subscribedResources u).Remove u })
        = server0.sessionID2session :=
      SyncMap.mutate_of_fix _ _ _ (fun v hv => by
        rw [hs0] at hv
        cases hv
        simp [SubscribedResources.Remove, SubscribedResources.Set, Finset.erase_insert hu])
    rw [hfix]

/-- Witness of C11: session "s1" and the URI "file:///a". -/
theorem C11_lifecycle_witness :
    (bareServer [("s1", freshSession)]).sessionID2session.Load "s1" = some freshSession ∧
    (run textUnmarshal (bareServer [("s1", freshSession)])
        [callOf .Initialize "s1" "client", callOf .Initialized "s1" "",
          callOf .Subscribe "s1" "file:///a"]).sessionID2session
      = [("s1", { clientInitializeRequest := some ⟨"client"⟩, receiveInitRequest := true,
                  ready := true, subscribedResources := {"file:///a"} })] ∧
    (run textUnmarshal (bareServer [("s1", freshSession)])
        [callOf .Initialize "s1" "client", callOf .Initialized "s1" "",
          callOf .Subscribe "s1" "file:///a",
          callOf .Unsubscribe "s1" "file:///a"]).sessionID2session.Load "s1"
      = some { clientInitializeRequest := some ⟨"client"⟩, receiveInitRequest := true,
               ready := true, subscribedResources := ∅ } :=
  have h := C11_lifecycle textUnmarshal (bareServer [("s1", freshSession)]) "s1" "client" ""
    "file:///a" "file:///a" ⟨"client"⟩ ⟨""⟩ "file:///a" freshSession (by decide) rfl rfl rfl
    rfl rfl
  ⟨by decide, by decide, h.2.2.2.1.2⟩

/-! ## Ping, the catalogs and the log level -/

/-- C12, as stated, fails: list-prompts on the undecodable payload of one
opening brace returns the decode error and no catalog. -/
theorem C12_ping_and_lists_counterexample :
    handleRequestWithListPrompts textUnmarshal catalogServer ⟨some "s1"⟩ "\x7b"
      = ((none, some (GoError.New "unexpected end of JSON input")), catalogServer) ∧
    (handleRequestWithListPrompts textUnmarshal catalogServer ⟨some "s1"⟩ "\x7b").1.2 ≠ none := by
  constructor
  · rfl
  · decide

/-- C12, amended: for every server state and every raw payload, ping succeeds
with the ping result, and ping, list-prompts, list-resources,
list-resource-templates and list-tools leave the server unchanged; for every
payload that decodes, each list method succeeds and returns the corresponding
catalog of the server verbatim; for a payload that does not decode it returns
the decode error and no result. -/
theorem C12_ping_and_lists (J : JsonUnmarshal) (server : Server) (ctx : Context)
    (rawParams : RawMessage) :
    handleRequestWithPing server ctx rawParams
      = ((some protocol.NewPingResponse, none), server) ∧
    ((handleRequestWithListPrompts J server ctx rawParams).2 = server ∧
      (∀ q, J.ListPromptsRequest rawParams = .ok q →
        (handleRequestWithListPrompts J server ctx rawParams).1
          = (some { Prompts := server.prompts }, none)) ∧
      (∀ err, J.ListPromptsRequest rawParams = .error err →
        (handleRequestWithListPrompts J server ctx rawParams).1 = (none, some err))) ∧
    ((handleRequestWithListResources J server ctx rawParams).2 = server ∧
      (∀ q, J.ListResourcesRequest rawParams = .ok q →
        (handleRequestWithListResources J server ctx rawParams).1
          = (some { Resources := server.resources }, none)) ∧
      (∀ err, J.ListResourcesRequest rawParams = .error err →
        (handleRequestWithListResources J server ctx rawParams).1 = (none, some err))) ∧
    ((handleRequestWitListResourceTemplates J server ctx rawParams).2 = server ∧
      (∀ q, J.ListResourceTemplatesRequest rawParams = .ok q →
        (handleRequestWitListResourceTemplates J server ctx rawParams).1
          = (some { ResourceTemplates := server.resourceTemplates }, none)) ∧
      (∀ err, J.ListResourceTemplatesRequest rawParams = .error err →
        (handleRequestWitListResourceTemplates J server ctx rawParams).1 = (none, some err))) ∧
    ((handleRequestWithListTools J server ctx rawParams).2 = server ∧
      (∀ q, J.ListToolsRequest rawParams = .ok q →
        (handleRequestWithListTools J server ctx rawParams).1
          = (some { Tools := server.tools }, none)) ∧
      (∀ err, J.ListToolsRequest rawParams = .error err →
        (handleRequestWithListTools J server ctx rawParams).1 = (none, some err))) := by
  refine ⟨rfl, ⟨handleRequestWithListPrompts_server J server ctx rawParams, ?_, ?_⟩,
    ⟨handleRequestWithListResources_server J server ctx rawParams, ?_, ?_⟩,
    ⟨handleRequestWitListResourceTemplates_server J server ctx rawParams, ?_, ?_⟩,
    ⟨handleRequestWithListTools_server J server ctx rawParams, ?_, ?_⟩⟩
  · intro q h; unfold handleRequestWithListPrompts; simp [h]
  · intro err h; unfold handleRequestWithListPrompts; simp [h]
  · intro q h; unfold handleRequestWithListResources; simp [h]
  · intro err h; unfold handleRequestWithListResources; simp [h]
  · intro q h; unfold handleRequestWitListResourceTemplates; simp [h]
  · intro err h; unfold handleRequestWitListResourceTemplates; simp [h]
  · intro q h; unfold handleRequestWithListTools; simp [h]
  · intro err h; unfold handleRequestWithListTools; simp [h]

/-- Witness of the amended C12: the four list methods on a server with two
entries per catalog and an empty payload. -/
theorem C12_ping_and_lists_witness :
    (handleRequestWithListPrompts textUnmarshal catalogServer ⟨some "s1"⟩ "").1
      = (some { Prompts := [⟨"greet"⟩, ⟨"bye"⟩] }, none) ∧
    (handleRequestWithListResources textUnmarshal catalogServer ⟨some "s1"⟩ "").1
      = (some { Resources := [⟨"file:///b"⟩, ⟨"file:///a"⟩] }, none) ∧
    (handleRequestWitListResourceTemplates textUnmarshal catalogServer ⟨some "s1"⟩ "").1
      = (some { ResourceTemplates := [⟨"file:///x"⟩, ⟨"file:///y"⟩] }, none) ∧
    (handleRequestWithListTools textUnmarshal catalogServer ⟨some "s1"⟩ "").1
      = (some { Tools := [⟨"sum"⟩, ⟨"echo"⟩] }, none) :=
  have h := C12_ping_and_lists textUnmarshal catalogServer ⟨some "s1"⟩ ""
  ⟨h.2.1.2.1 ⟨""⟩ rfl, h.2.2.1.2.1 ⟨""⟩ rfl, h.2.2.2.1.2.1 ⟨""⟩ rfl, h.2.2.2.2.2.1 ⟨""⟩ rfl⟩

/-- C13: for every session id, every raw payload and every server state,
set-log-level returns no error, its result is the empty default of the result
type (the nil pointer of the placeholder, no SetLoggingLevelResult is filled
in), and the server, hence the session store, is unchanged; the same holds of
the call dispatched for any decoder. -/
theorem C13_set_log_level (J : JsonUnmarshal) (server : Server) (ctx : Context)
    (sessionID : String) (rawParams : RawMessage) :
    (handleRequestWithSetLogLevel server ctx sessionID rawParams).1.2 = none ∧
    (handleRequestWithSetLogLevel server ctx sessionID rawParams).1.1 = default ∧
    (handleRequestWithSetLogLevel server ctx sessionID rawParams).2 = server ∧
    (dispatch J server ⟨.SetLogLevel, ctx, sessionID, rawParams⟩).1 = (default, none) ∧
    (dispatch J server ⟨.SetLogLevel, ctx, sessionID, rawParams⟩).2.sessionID2session
      = server.sessionID2session :=
  ⟨rfl, rfl, rfl, rfl, rfl⟩

/-! ## Prompts and resources -/

/-- C14: for every registry and every payload that decodes to a get-prompt
request (keyed by its name) or a read-resource request (keyed by its URI): if
the key is registered, the handler returns exactly the pair that the
registered handler function returns on the decoded request, errors included;
if it is not, the handler fails with "missing prompt handler, promptName=" or
"missing resource read handler, uri=" followed by the key, and the server is
unchanged. -/
theorem C14_get_prompt_read_resource (J : JsonUnmarshal) (server : Server) (ctx : Context)
    (rawParams : RawMessage) :
    (∀ request, J.GetPromptRequest rawParams = .ok request →
      (∀ handlerFunc, server.promptHandlers request.Name = some handlerFunc →
        handleRequestWithGetPrompt J server ctx rawParams = (handlerFunc request, server)) ∧
      (server.promptHandlers request.Name = none →
        handleRequestWithGetPrompt J server ctx rawParams
          = ((none, some (GoError.New ("missing prompt handler, promptName=" ++ request.Name))),
              server))) ∧
    (∀ request, J.ReadResourceRequest rawParams = .ok request →
      (∀ handlerFunc, server.resourceHandlers request.URI = some handlerFunc →
        handleRequestWithReadResource J server ctx rawParams = (handlerFunc request, server)) ∧
      (server.resourceHandlers request.URI = none →
        handleRequestWithReadResource J server ctx rawParams
          = ((none, some (GoError.New ("missing resource read handler, uri=" ++ request.URI))),
              server))) := by
  refine ⟨fun request hdec => ⟨?_, ?_⟩, fun request hdec => ⟨?_, ?_⟩⟩
  · intro handlerFunc h; unfold handleRequestWithGetPrompt; simp [hdec, h]
  · intro h; unfold handleRequestWithGetPrompt; simp [hdec, h]
  · intro handlerFunc h; unfold handleRequestWithReadResource; simp [hdec, h]
  · intro h; unfold handleRequestWithReadResource; simp [hdec, h]

/-- Witness of C14: the prompt "greet" is registered and "bye" is not; the
handler of the resource "file:///a" fails and "file:///b" has no handler. -/
theorem C14_get_prompt_read_resource_witness :
    (handleRequestWithGetPrompt textUnmarshal
        { bareServer [] with promptHandlers := greetPrompt } ⟨some "s1"⟩ "greet").1
      = (some ⟨""⟩, none) ∧
    (handleRequestWithGetPrompt textUnmarshal
        { bareServer [] with promptHandlers := greetPrompt } ⟨some "s1"⟩ "bye").1
      = (none, some (GoError.New "missing prompt handler, promptName=bye")) ∧
    (handleRequestWithReadResource textUnmarshal
        { bareServer [] with resourceHandlers := failingResource } ⟨some "s1"⟩ "file:///a").1
      = (none, some (GoError.New "disk failure")) ∧
    (handleRequestWithReadResource textUnmarshal
        { bareServer [] with resourceHandlers := failingResource } ⟨some "s1"⟩ "file:///b").1
      = (none, some (GoError.New "missing resource read handler, uri=file:///b")) :=
  have hp := C14_get_prompt_read_resource textUnmarshal
    { bareServer [] with promptHandlers := greetPrompt } ⟨some "s1"⟩
  have hr := C14_get_prompt_read_resource textUnmarshal
    { bareServer [] with resourceHandlers := failingResource } ⟨some "s1"⟩
  ⟨by rw [((hp "greet").1 ⟨"greet", ""⟩ rfl).1 (fun request => (some ⟨request.payload⟩, none)) rfl],
    by rw [((hp "bye").1 ⟨"bye", ""⟩ rfl).2 rfl]; decide,
    by rw [((hr "file:///a").2 ⟨"file:///a", ""⟩ rfl).1
      (fun _ => (none, some (GoError.New "disk failure"))) rfl],
    by rw [((hr "file:///b").2 ⟨"file:///b", ""⟩ rfl).2 rfl]; decide⟩

/-! ## The effect of one call on the session store -/

theorem Server.eq_mutate_self (server : Server) (key : String) :
    server = { server with
      sessionID2session := server.sessionID2session.mutate key (fun s => s) } := by
  rw [SyncMap.mutate_of_fix _ _ _ (fun _ _ => rfl)]

theorem dispatch_effect (J : JsonUnmarshal) (server : Server) (c : Call) :
    ∃ f : session → session,
      (dispatch J server c).2
        = { server with sessionID2session := server.sessionID2session.mutate c.target f } ∧
      ∀ s, server.sessionID2session.Load c.target = some s → SessionWrite J c s (f s) := by
  have same : ∀ r : Ret Result × Server, r.2 = server →
      ∃ f : session → session,
        r.2 = { server with sessionID2session := server.sessionID2session.mutate c.target f } ∧
        ∀ s, server.sessionID2session.Load c.target = some s → SessionWrite J c s (f s) :=
    fun r hr => ⟨fun s => s, by rw [hr]; exact Server.eq_mutate_self server _,
      fun s _ => Or.inl rfl⟩
  obtain ⟨method, ctx, sessionID, rawParams⟩ := c
  cases method
  · -- initialize
    cases hd : J.InitializeRequest rawParams with
    | error err =>
      exact same _ (by simp [dispatch, tagged, handleRequestWithInitialize, hd])
    | ok r =>
      cases hl : server.sessionID2session.Load (getSessionIDFromCtx ctx).1 with
      | none =>
        exact same _ (by simp [dispatch, tagged, handleRequestWithInitialize, hd, hl])
      | some s0 =>
        refine ⟨fun s => { s with clientInitializeRequest := some r,
                                  receiveInitRequest := true }, ?_, ?_⟩
        · simp only [dispatch, tagged, Call.target,
            handleRequestWithInitialize_found J server ctx sessionID rawParams r s0 hd hl]
        · intro s _
          exact Or.inr (Or.inl ⟨r, rfl, hd, rfl⟩)
  · -- initialized
    cases hd : J.InitializedNotification rawParams with
    | error err =>
      exact same _ (by simp [dispatch, handleNotifyWithInitialized, hd])
    | ok n =>
      cases hl : server.sessionID2session.Load sessionID with
      | none =>
        exact same _ (by simp [dispatch, handleNotifyWithInitialized, hd, hl])
      | some s0 =>
        cases hr : s0.receiveInitRequest with
        | false =>
          exact same _ (by simp [dispatch, handleNotifyWithInitialized, hd, hl, hr])
        | true =>
          refine ⟨fun s => { s with ready := true }, ?_, ?_⟩
          · simp only [dispatch, Call.target,
              handleNotifyWithInitialized_found J server ctx sessionID rawParams n s0 hd hl hr]
          · intro s hs
            have hs' : server.sessionID2session.Load sessionID = some s := hs
            rw [hl] at hs'
            cases hs'
            exact Or.inr (Or.inr (Or.inl ⟨rfl, hr, rfl⟩))
  · -- subscribe
    cases hd : J.SubscribeRequest rawParams with
    | error err =>
      exact same _ (by simp [dispatch, tagged, handleRequestWithSubscribeResourceChange, hd])
    | ok q =>
      cases hl : server.sessionID2session.Load (getSessionIDFromCtx ctx).1 with
      | none =>
        exact same _
          (by simp [dispatch, tagged, handleRequestWithSubscribeResourceChange, hd, hl])
      | some s0 =>
        refine ⟨fun s => { s with subscribedResources := s.subscribedResources.Set q.URI },
          ?_, ?_⟩
        · simp only [dispatch, tagged, Call.target,
            handleRequestWithSubscribeResourceChange_found J server ctx rawParams q.URI s0 hd hl]
        · intro s _
          exact Or.inr (Or.inr (Or.inr (Or.inl ⟨q, rfl, hd, rfl⟩)))
  · -- unsubscribe
    cases hd : J.UnsubscribeRequest rawParams with
    | error err =>
      exact same _ (by simp [dispatch, tagged, handleRequestWithUnSubscribeResourceChange, hd])
    | ok q =>
      cases hl : server.sessionID2session.Load (getSessionIDFromCtx ctx).1 with
      | none =>
        exact same _
          (by simp [dispatch, tagged, handleRequestWithUnSubscribeResourceChange, hd, hl])
      | some s0 =>
        refine ⟨fun s => { s with subscribedResources := s.subscribedResources.Remove q.URI },
          ?_, ?_⟩
        · simp only [dispatch, tagged, Call.target,
            handleRequestWithUnSubscribeResourceChange_found J server ctx rawParams q.URI s0
              hd hl]
        · intro s _
          exact Or.inr (Or.inr (Or.inr (Or.inr ⟨q, rfl, hd, rfl⟩)))
  · exact same _ rfl
  · exact same _ rfl
  · exact same _ (by simp [dispatch, tagged, handleRequestWithListPrompts_server])
  · exact same _ (by simp [dispatch, tagged, handleRequestWithGetPrompt_server])
  · exact same _ (by simp [dispatch, tagged, handleRequestWithListResources_server])
  · exact same _ (by simp [dispatch, tagged, handleRequestWithReadResource_server])
  · exact same _ (by simp [dispatch, tagged, handleRequestWitListResourceTemplates_server])
  · exact same _ (by simp [dispatch, tagged, handleRequestWithListTools_server])
  · exact same _ (by simp [dispatch, tagged, handleRequestWithCallTool_server])
  · exact same _ (by simp [dispatch, tagged, handleRequestWithCompleteRequest_server])

theorem dispatch_Load (J : JsonUnmarshal) (server : Server) (c : Call) (id : String) :
    (id ≠ c.target →
      (dispatch J server c).2.sessionID2session.Load id = server.sessionID2session.Load id) ∧
    (server.sessionID2session.Load id = none →
      (dispatch J server c).2.sessionID2session.Load id = none) ∧
    (∀ s, server.sessionID2session.Load id = some s →
      ∃ t, (dispatch J server c).2.sessionID2session.Load id = some t ∧
        (t = s ∨ (id = c.target ∧ SessionWrite J c s t))) := by
  obtain ⟨f, hf, hw⟩ := dispatch_effect J server c
  rw [hf]
  simp only [SyncMap.Load_mutate]
  refine ⟨?_, ?_, ?_⟩
  · intro hne; simp [hne]
  · intro hnone
    by_cases h : id = c.target
    · subst h; simp [hnone]
    · simp [h, hnone]
  · intro s hs
    by_cases h : id = c.target
    · subst h
      exact ⟨f s, by simp [hs], Or.inr ⟨rfl, hw s hs⟩⟩
    · exact ⟨s, by simp [h, hs], Or.inl rfl⟩

/-! ## Lifecycle of a session -/

/-- C15: for every call of the dispatcher, every input and every session in
the store: the session is still in the store after the call; if
receiveInitRequest (respectively ready) was true before the call it is true
after it; and a session with receiveInitRequest = false and ready = false
before the call does not have ready = true after it. -/
theorem C15_lifecycle_monotonic (J : JsonUnmarshal) (server : Server) (c : Call)
    (id : String) (s : session) (hs : server.sessionID2session.Load id = some s) :
    ∃ t, (dispatch J server c).2.sessionID2session.Load id = some t ∧
      (s.receiveInitRequest = true → t.receiveInitRequest = true) ∧
      (s.ready = true → t.ready = true) ∧
      (s.receiveInitRequest = false → s.ready = false → t.ready = false) := by
  obtain ⟨t, ht, hcase⟩ := (dispatch_Load J server c id).2.2 s hs
  refine ⟨t, ht, ?_⟩
  rcases hcase with h | ⟨_, h | ⟨r, _, _, h⟩ | ⟨_, hrecv, h⟩ | ⟨q, _, _, h⟩ | ⟨q, _, _, h⟩⟩
  · subst h; exact ⟨fun h => h, fun h => h, fun _ h => h⟩
  · subst h; exact ⟨fun h => h, fun h => h, fun _ h => h⟩
  · subst h; exact ⟨fun _ => rfl, fun h => h, fun _ h => h⟩
  · subst h
    exact ⟨fun h => h, fun _ => rfl, fun h _ => by rw [hrecv] at h; cases h⟩
  · subst h; exact ⟨fun h => h, fun h => h, fun _ h => h⟩
  · subst h; exact ⟨fun h => h, fun h => h, fun _ h => h⟩

/-- Witness of C15: initialize on the fresh session "s1" leaves it with
receiveInitRequest = true and ready = false; a following initialized
notification keeps receiveInitRequest and sets ready. -/
theorem C15_lifecycle_monotonic_witness :
    (bareServer [("s1", freshSession)]).sessionID2session.Load "s1" = some freshSession ∧
    (∃ t, (dispatch textUnmarshal (bareServer [("s1", freshSession)])
          (callOf .Initialize "s1" "client")).2.sessionID2session.Load "s1" = some t ∧
      (freshSession.receiveInitRequest = true → t.receiveInitRequest = true) ∧
      (freshSession.ready = true → t.ready = true) ∧
      (freshSession.receiveInitRequest = false → freshSession.ready = false →
        t.ready = false)) ∧
    (run textUnmarshal (bareServer [("s1", freshSession)])
        [callOf .Initialize "s1" "client", callOf .Initialized "s1" ""]).sessionID2session
      = [("s1", { clientInitializeRequest := some ⟨"client"⟩, receiveInitRequest := true,
                  ready := true, subscribedResources := ∅ })] :=
  ⟨by decide,
    C15_lifecycle_monotonic textUnmarshal (bareServer [("s1", freshSession)])
      (callOf .Initialize "s1" "client") "s1" freshSession (by decide),
    by decide⟩

/-- C16, as stated, fails: after an initialize of session "s1" that stores the
request for protocol version 2024-11-05, a second initialize carrying the
request for protocol version 2025-03-26 succeeds and replaces the stored
request. -/
theorem C16_client_info_counterexample :
    ((run objectUnmarshal (bareServer [("s1", freshSession)])
        [callOf .Initialize "s1" initializeA]).sessionID2session.Load "s1").map
        (fun s => s.clientInitializeRequest) = some (some ⟨"2024-11-05"⟩) ∧
    (dispatch objectUnmarshal
        (run objectUnmarshal (bareServer [("s1", freshSession)])
          [callOf .Initialize "s1" initializeA])
        (callOf .Initialize "s1" initializeB)).1.2 = none ∧
    ((run objectUnmarshal (bareServer [("s1", freshSession)])
        [callOf .Initialize "s1" initializeA,
          callOf .Initialize "s1" initializeB]).sessionID2session.Load "s1").map
        (fun s => s.clientInitializeRequest) = some (some ⟨"2025-03-26"⟩) := by
  decide

/-- C16, amended: for every call and every session in the store: if the call
is an initialize whose context carries the id of the session and whose payload
decodes to a request r, the call succeeds and the session is left with r as
its stored client request (and receiveInitRequest set), whatever was stored
before; in every other case the stored client request after the call is the
one before it. Hence the client request is nil until an initialize succeeds on
the session, and the last successful initialize wins. -/
theorem C16_client_info (J : JsonUnmarshal) (server : Server) (c : Call) (id : String)
    (s : session) (hs : server.sessionID2session.Load id = some s) :
    (∀ r, c.method = .Initialize → id = (getSessionIDFromCtx c.ctx).1 →
      J.InitializeRequest c.rawParams = .ok r →
      (dispatch J server c).1.2 = none ∧
      (dispatch J server c).2.sessionID2session.Load id
        = some { s with clientInitializeRequest := some r, receiveInitRequest := true }) ∧
    (¬ (c.method = .Initialize ∧ id = (getSessionIDFromCtx c.ctx).1 ∧
        ∃ r, J.InitializeRequest c.rawParams = .ok r) →
      ((dispatch J server c).2.sessionID2session.Load id).map
          (fun t => t.clientInitializeRequest)
        = some s.clientInitializeRequest) := by
  constructor
  · intro r hm hid hd
    obtain ⟨method, ctx, sessionID, rawParams⟩ := c
    simp only at hm hid hd
    subst hm
    subst hid
    simp only [dispatch, tagged,
      handleRequestWithInitialize_found J server ctx sessionID rawParams r s hd hs]
    simp [SyncMap.Load_mutate, hs]
  · intro hnot
    obtain ⟨t, ht, hcase⟩ := (dispatch_Load J server c id).2.2 s hs
    rw [ht]
    rcases hcase with h | ⟨hid, h | ⟨r, hm, hd, _⟩ | ⟨_, _, h⟩ | ⟨q, _, _, h⟩ | ⟨q, _, _, h⟩⟩
    · subst h; rfl
    · subst h; rfl
    · exfalso
      apply hnot
      refine ⟨hm, ?_, r, hd⟩
      rw [hid]
      unfold Call.target
      rw [hm]
    · subst h; rfl
    · subst h; rfl
    · subst h; rfl

/-- Witness of the amended C16: session "s1" holds the request for protocol
version 2024-11-05; a second initialize carrying the request for 2025-03-26
succeeds and stores that request, and a subscribe leaves the stored request as
it is. -/
theorem C16_client_info_witness :
    (bareServer [("s1", handshakingSession)]).sessionID2session.Load "s1"
      = some handshakingSession ∧
    objectUnmarshal.InitializeRequest initializeB = .ok ⟨"2025-03-26"⟩ ∧
    (dispatch objectUnmarshal (bareServer [("s1", handshakingSession)])
        (callOf .Initialize "s1" initializeB)).1.2 = none ∧
    (dispatch objectUnmarshal (bareServer [("s1", handshakingSession)])
        (callOf .Initialize "s1" initializeB)).2.sessionID2session.Load "s1"
      = some { handshakingSession with clientInitializeRequest := some ⟨"2025-03-26"⟩ } ∧
    ((dispatch objectUnmarshal (bareServer [("s1", handshakingSession)])
        (callOf .Subscribe "s1" emptyObject)).2.sessionID2session.Load "s1").map
        (fun t => t.clientInitializeRequest) = some (some ⟨"2024-11-05"⟩) :=
  have h1 := (C16_client_info objectUnmarshal (bareServer [("s1", handshakingSession)])
    (callOf .Initialize "s1" initializeB) "s1" handshakingSession (by decide)).1
    ⟨"2025-03-26"⟩ rfl rfl rfl
  have h2 := (C16_client_info objectUnmarshal (bareServer [("s1", handshakingSession)])
    (callOf .Subscribe "s1" emptyObject) "s1" handshakingSession (by decide)).2
    (fun h => by cases h.1)
  ⟨by decide, rfl, h1.1, h1.2, h2⟩

/-! ## Frame of a call -/

/-- C17: for every call of the dispatcher and every input, the list of
session ids in the store is unchanged; every session stored under an id
other than the one the call carries (in its context and as its session-id
argument) is unchanged in all its fields; and the registries, the catalogs and
the constants of the server are unchanged. -/
theorem C17_frame (J : JsonUnmarshal) (server : Server) (c : Call) :
    (dispatch J server c).2.sessionID2session.map Prod.fst
      = server.sessionID2session.map Prod.fst ∧
    (∀ id, id ≠ (getSessionIDFromCtx c.ctx).1 → id ≠ c.sessionID →
      (dispatch J server c).2.sessionID2session.Load id = server.sessionID2session.Load id) ∧
    ((dispatch J server c).2.promptHandlers = server.promptHandlers ∧
      (dispatch J server c).2.resourceHandlers = server.resourceHandlers ∧
      (dispatch J server c).2.toolHandlers = server.toolHandlers ∧
      (dispatch J server c).2.completionHandlers = server.completionHandlers) ∧
    ((dispatch J server c).2.prompts = server.prompts ∧
      (dispatch J server c).2.resources = server.resources ∧
      (dispatch J server c).2.resourceTemplates = server.resourceTemplates ∧
      (dispatch J server c).2.tools = server.tools) ∧
    ((dispatch J server c).2.protocolVersion = server.protocolVersion ∧
      (dispatch J server c).2.capabilities = server.capabilities ∧
      (dispatch J server c).2.serverInfo = server.serverInfo) := by
  obtain ⟨f, hf, _⟩ := dispatch_effect J server c
  refine ⟨?_, ?_, ?_, ?_, ?_⟩
  · rw [hf]; exact SyncMap.keys_mutate _ _ _
  · intro id hctx harg
    refine (dispatch_Load J server c id).1 ?_
    unfold Call.target
    split
    · exact harg
    · exact hctx
  · rw [hf]; exact ⟨rfl, rfl, rfl, rfl⟩
  · rw [hf]; exact ⟨rfl, rfl, rfl, rfl⟩
  · rw [hf]; exact ⟨rfl, rfl, rfl⟩

/-- Witness of C17: session "s1" initializes next to the session "s2"; "s2"
and the list of ids are as before. -/
theorem C17_frame_witness :
    "s2" ≠ (getSessionIDFromCtx (callOf .Initialize "s1" "client").ctx).1 ∧
    "s2" ≠ (callOf .Initialize "s1" "client").sessionID ∧
    (dispatch textUnmarshal (bareServer [("s1", freshSession), ("s2", freshSession)])
        (callOf .Initialize "s1" "client")).2.sessionID2session.Load "s2"
      = (bareServer [("s1", freshSession), ("s2", freshSession)]).sessionID2session.Load "s2" ∧
    (dispatch textUnmarshal (bareServer [("s1", freshSession), ("s2", freshSession)])
        (callOf .Initialize "s1" "client")).2.sessionID2session
      = [("s1", { freshSession with clientInitializeRequest := some ⟨"client"⟩,
                                    receiveInitRequest := true }), ("s2", freshSession)] :=
  ⟨by decide, by decide,
    (C17_frame textUnmarshal (bareServer [("s1", freshSession), ("s2", freshSession)])
      (callOf .Initialize "s1" "client")).2.1 "s2" (by decide) (by decide),
    by decide⟩

/-! ## No readiness gating -/

theorem SyncMap.Load_map (m : SyncMap) (g : session → session) (k : String) :
    SyncMap.Load (m.map (fun p => (p.1, g p.2))) k = (SyncMap.Load m k).map g := by
  induction m with
  | nil => rfl
  | cons hd tl ih =>
    obtain ⟨a, v⟩ := hd
    by_cases ha : a = k
    · simp [SyncMap.Load, ha]
    · simpa [SyncMap.Load, ha] using ih

theorem SyncMap.mutate_map (m : SyncMap) (g f : session → session) (k : String)
    (hcomm : ∀ s, g (f s) = f (g s)) :
    (SyncMap.mutate m k f).map (fun p => (p.1, g p.2))
      = SyncMap.mutate (m.map (fun p => (p.1, g p.2))) k f := by
  induction m with
  | nil => rfl
  | cons hd tl ih =>
    obtain ⟨a, v⟩ := hd
    by_cases ha : a = k
    · simp [SyncMap.mutate, ha, hcomm]
    · simpa [SyncMap.mutate, ha] using ih

theorem handleRequestWithSubscribeResourceChange_withoutFlags (J : JsonUnmarshal)
    (server : Server) (ctx : Context) (rawParams : RawMessage) :
    handleRequestWithSubscribeResourceChange J server.withoutFlags ctx rawParams
      = ((handleRequestWithSubscribeResourceChange J server ctx rawParams).1,
          (handleRequestWithSubscribeResourceChange J server ctx rawParams).2.withoutFlags) := by
  unfold handleRequestWithSubscribeResourceChange
  cases hd : J.SubscribeRequest rawParams with
  | error err => rfl
  | ok q =>
    simp only [Server.withoutFlags, SyncMap.Load_map]
    cases hl : server.sessionID2session.Load (getSessionIDFromCtx ctx).1 with
    | none => rfl
    | some s0 =>
      simp only [Option.map_some']
      rw [SyncMap.mutate_map server.sessionID2session session.withoutFlags]
      intro s; rfl

theorem handleRequestWithUnSubscribeResourceChange_withoutFlags (J : JsonUnmarshal)
    (server : Server) (ctx : Context) (rawParams : RawMessage) :
    handleRequestWithUnSubscribeResourceChange J server.withoutFlags ctx rawParams
      = ((handleRequestWithUnSubscribeResourceChange J server ctx rawParams).1,
          (handleRequestWithUnSubscribeResourceChange J server ctx rawParams).2.withoutFlags) := by
  unfold handleRequestWithUnSubscribeResourceChange
  cases hd : J.UnsubscribeRequest rawParams with
  | error err => rfl
  | ok q =>
    simp only [Server.withoutFlags, SyncMap.Load_map]
    cases hl : server.sessionID2session.Load (getSessionIDFromCtx ctx).1 with
    | none => rfl
    | some s0 =>
      simp only [Option.map_some']
      rw [SyncMap.mutate_map server.sessionID2session session.withoutFlags]
      intro s; rfl

theorem dispatch_withoutFlags (J : JsonUnmarshal) (server : Server) (c : Call)
    (hinit : c.method ≠ .Initialize) (hnote : c.method ≠ .Initialized) :
    dispatch J server.withoutFlags c
      = ((dispatch J server c).1, (dispatch J server c).2.withoutFlags) := by
  obtain ⟨method, ctx, sessionID, rawParams⟩ := c
  cases method
  · exact absurd rfl hinit
  · exact absurd rfl hnote
  · simp only [dispatch, tagged, handleRequestWithSubscribeResourceChange_withoutFlags]
  · simp only [dispatch, tagged, handleRequestWithUnSubscribeResourceChange_withoutFlags]
  · rfl
  · rfl
  · simp only [dispatch, tagged, handleRequestWithListPrompts]
    cases J.ListPromptsRequest rawParams <;> rfl
  · simp only [dispatch, tagged, handleRequestWithGetPrompt]
    cases J.GetPromptRequest rawParams with
    | error err => rfl
    | ok q =>
      simp only [Server.withoutFlags]
      cases server.promptHandlers q.Name <;> rfl
  · simp only [dispatch, tagged, handleRequestWithListResources]
    cases J.ListResourcesRequest rawParams <;> rfl
  · simp only [dispatch, tagged, handleRequestWithReadResource]
    cases J.ReadResourceRequest rawParams with
    | error err => rfl
    | ok q =>
      simp only [Server.withoutFlags]
      cases server.resourceHandlers q.URI <;> rfl
  · simp only [dispatch, tagged, handleRequestWitListResourceTemplates]
    cases J.ListResourceTemplatesRequest rawParams <;> rfl
  · simp only [dispatch, tagged, handleRequestWithListTools]
    cases J.ListToolsRequest rawParams <;> rfl
  · simp only [dispatch, tagged, handleRequestWithCallTool]
    cases J.CallToolRequest rawParams with
    | error err => rfl
    | ok q =>
      simp only [Server.withoutFlags]
      cases server.toolHandlers q.Name <;> rfl
  · simp only [dispatch, tagged, handleRequestWithCompleteRequest]
    cases J.CompleteRequest rawParams with
    | error err => rfl
    | ok q =>
      simp only [Server.withoutFlags]
      cases handerName q.ref with
      | error err => rfl
      | ok name =>
        dsimp only
        cases server.completionHandlers name <;> rfl

theorem Server.withoutFlags_subscribed (server1 server2 : Server)
    (h : server1.withoutFlags = server2.withoutFlags) (id : String) :
    (server1.sessionID2session.Load id).map (fun s => s.subscribedResources)
      = (server2.sessionID2session.Load id).map (fun s => s.subscribedResources) := by
  have h1 := congrArg (fun sv : Server =>
    (sv.sessionID2session.Load id).map (fun s => s.subscribedResources)) h
  simp only [Server.withoutFlags, SyncMap.Load_map, Option.map_map] at h1
  exact h1

/-- C18: for every method other than initialize and initialized (subscribe,
unsubscribe, set-log-level, ping, the list methods, get-prompt, read-resource,
call-tool, complete), any two servers that differ at most in the
receiveInitRequest and ready flags of their sessions, and the same call: the
returned result and error are identical, the two servers after the call again
differ at most in those flags, and every session has the same subscription set
in both; and subscribe with a decodable payload succeeds once the session is
found, whatever its flags. -/
theorem C18_no_readiness_gating (J : JsonUnmarshal) (server1 server2 : Server) (c : Call)
    (hinit : c.method ≠ .Initialize) (hnote : c.method ≠ .Initialized)
    (hflags : server1.withoutFlags = server2.withoutFlags) :
    (dispatch J server1 c).1 = (dispatch J server2 c).1 ∧
    (dispatch J server1 c).2.withoutFlags = (dispatch J server2 c).2.withoutFlags ∧
    (∀ id,
      ((dispatch J server1 c).2.sessionID2session.Load id).map (fun s => s.subscribedResources)
        = ((dispatch J server2 c).2.sessionID2session.Load id).map
            (fun s => s.subscribedResources)) ∧
    (∀ q s, c.method = .Subscribe → J.SubscribeRequest c.rawParams = .ok q →
      server1.sessionID2session.Load (getSessionIDFromCtx c.ctx).1 = some s →
      (dispatch J server1 c).1 = (some (Result.Subscribe {}), none)) := by
  have h1 := dispatch_withoutFlags J server1 c hinit hnote
  have h2 := dispatch_withoutFlags J server2 c hinit hnote
  rw [hflags, h2] at h1
  have hres : (dispatch J server1 c).1 = (dispatch J server2 c).1 :=
    (congrArg Prod.fst h1).symm
  have hsrv : (dispatch J server1 c).2.withoutFlags = (dispatch J server2 c).2.withoutFlags :=
    (congrArg Prod.snd h1).symm
  refine ⟨hres, hsrv, Server.withoutFlags_subscribed _ _ hsrv, ?_⟩
  intro q s hm hd hl
  obtain ⟨method, ctx, sessionID, rawParams⟩ := c
  simp only at hm hd hl
  subst hm
  simp only [dispatch, tagged,
    handleRequestWithSubscribeResourceChange_found J server1 ctx rawParams q.URI s hd hl]
  rfl

/-- Witness of C18: subscribe for session "s1", once fresh (not ready) and
once ready; the result is the same success and the subscription set is the
same. -/
theorem C18_no_readiness_gating_witness :
    (bareServer [("s1", freshSession)]).withoutFlags
      = (bareServer [("s1", readySession)]).withoutFlags ∧
    (dispatch textUnmarshal (bareServer [("s1", freshSession)])
        (callOf .Subscribe "s1" "file:///a")).1
      = (dispatch textUnmarshal (bareServer [("s1", readySession)])
          (callOf .Subscribe "s1" "file:///a")).1 ∧
    (dispatch textUnmarshal (bareServer [("s1", freshSession)])
        (callOf .Subscribe "s1" "file:///a")).1 = (some (Result.Subscribe {}), none) ∧
    (dispatch textUnmarshal (bareServer [("s1", freshSession)])
        (callOf .Subscribe "s1" "file:///a")).2.sessionID2session
      = [("s1", { freshSession with subscribedResources := {"file:///a"} })] ∧
    (dispatch textUnmarshal (bareServer [("s1", readySession)])
        (callOf .Subscribe "s1" "file:///a")).2.sessionID2session
      = [("s1", { readySession with subscribedResources := {"file:///a"} })] :=
  have h := C18_no_readiness_gating textUnmarshal (bareServer [("s1", freshSession)])
    (bareServer [("s1", readySession)]) (callOf .Subscribe "s1" "file:///a")
    (by decide) (by decide) rfl
  ⟨rfl, h.1, h.2.2.2 ⟨"file:///a"⟩ freshSession rfl rfl (by decide), by decide, by decide⟩

/-! ## Which session id a handler uses -/

theorem handleNotifyWithInitialized_context (J : JsonUnmarshal) (server : Server)
    (ctx ctx2 : Context) (sessionID : String) (rawParams : RawMessage) :
    handleNotifyWithInitialized J server ctx sessionID rawParams
      = handleNotifyWithInitialized J server ctx2 sessionID rawParams :=
  rfl

theorem key_eq_of_not_tagExtends (t1 x1 t2 x2 : String) (h12 : tagExtends t1 t2 = false)
    (h21 : tagExtends t2 t1 = false) (h : t1 ++ "/" ++ x1 = t2 ++ "/" ++ x2) :
    t1 = t2 ∧ x1 = x2 := by
  have hd := congrArg String.data h
  simp only [String.data_append, List.append_assoc] at hd
  have hslash : ("/" : String).data = ['/'] := rfl
  have n12 : ¬ (t1.data ++ ['/']) <+: t2.data := by
    intro hp
    have : tagExtends t1 t2 = true := by
      unfold tagExtends
      rw [List.isPrefixOf_iff_prefix, String.data_append, hslash]
      exact hp
    rw [h12] at this
    cases this
  have n21 : ¬ (t2.data ++ ['/']) <+: t1.data := by
    intro hp
    have : tagExtends t2 t1 = true := by
      unfold tagExtends
      rw [List.isPrefixOf_iff_prefix, String.data_append, hslash]
      exact hp
    rw [h21] at this
    cases this
  rcases List.append_eq_append_iff.mp hd with ⟨a, ha, hb⟩ | ⟨a, ha, hb⟩
  · cases a with
    | nil =>
      simp only [List.append_nil, List.nil_append] at ha hb
      have hx : x1.data = x2.data := by simpa using hb
      exact ⟨String.ext ha.symm, String.ext hx⟩
    | cons ch rest =>
      exfalso
      apply n12
      have hch : ch = '/' := by
        have := congrArg List.head? hb
        simpa using this.symm
      subst hch
      exact ⟨rest, by rw [ha]; simp⟩
  · cases a with
    | nil =>
      simp only [List.append_nil, List.nil_append] at ha hb
      have hx : x2.data = x1.data := by simpa using hb
      exact ⟨String.ext ha, String.ext hx.symm⟩
    | cons ch rest =>
      exfalso
      apply n21
      have hch : ch = '/' := by
        have := congrArg List.head? hb
        simpa using this.symm
      subst hch
      exact ⟨rest, by rw [ha]; simp⟩

/-- C20, as stated, fails: the prompt references ("a", "b/c") and ("a/b", "c")
have different tags and names and the same key "a/b/c"; and the prompt
reference ("t", "x") and the resource reference ("t", "x") are of different
variants and have the same key "t/x". -/
theorem C20_completion_key_injective_counterexample :
    handerName (.PromptReference "a" "b/c") = .ok "a/b/c" ∧
    handerName (.PromptReference "a/b" "c") = .ok "a/b/c" ∧
    protocol.Ref.PromptReference "a" "b/c" ≠ protocol.Ref.PromptReference "a/b" "c" ∧
    handerName (.PromptReference "t" "x") = handerName (.ResourceReference "t" "x") ∧
    protocol.Ref.PromptReference "t" "x" ≠ protocol.Ref.ResourceReference "t" "x" := by
  refine ⟨rfl, rfl, by decide, rfl, by decide⟩

/-- C20, amended: for two references accepted by complete such that neither
tag followed by "/" is a prefix of the other tag, the computed keys are equal
exactly when the tags are equal and the names or URIs are equal, whatever the
two variants; so two such references resolve to the same entry only if they
agree in tag and name or URI, and a prompt reference and a resource reference
do so when they carry the same tag and the same name or URI. -/
theorem C20_completion_key_injective (t1 x1 t2 x2 : String)
    (h12 : tagExtends t1 t2 = false) (h21 : tagExtends t2 t1 = false) :
    (handerName (.PromptReference t1 x1) = handerName (.PromptReference t2 x2)
      ↔ t1 = t2 ∧ x1 = x2) ∧
    (handerName (.PromptReference t1 x1) = handerName (.ResourceReference t2 x2)
      ↔ t1 = t2 ∧ x1 = x2) ∧
    (handerName (.ResourceReference t1 x1) = handerName (.PromptReference t2 x2)
      ↔ t1 = t2 ∧ x1 = x2) ∧
    (handerName (.ResourceReference t1 x1) = handerName (.ResourceReference t2 x2)
      ↔ t1 = t2 ∧ x1 = x2) := by
  have key : (Except.ok (t1 ++ "/" ++ x1) : Except GoError String)
      = Except.ok (t2 ++ "/" ++ x2) ↔ t1 = t2 ∧ x1 = x2 :=
    ⟨fun h => key_eq_of_not_tagExtends t1 x1 t2 x2 h12 h21 (Except.ok.inj h),
      fun h => by rw [h.1, h.2]⟩
  exact ⟨key, key, key, key⟩

/-- Witness of the amended C20: neither of the tags "ref/prompt" and
"ref/resource" extends the other, and the keys of the prompt reference
("ref/prompt", "greet") and of the resource reference ("ref/resource",
"greet") differ; the prompt reference and the resource reference with the tag
"ref/prompt" and the name or URI "greet" have the same key. -/
theorem C20_completion_key_injective_witness :
    tagExtends "ref/prompt" "ref/resource" = false ∧
    tagExtends "ref/resource" "ref/prompt" = false ∧
    handerName (.PromptReference "ref/prompt" "greet")
      ≠ handerName (.ResourceReference "ref/resource" "greet") ∧
    tagExtends "ref/prompt" "ref/prompt" = false ∧
    handerName (.PromptReference "ref/prompt" "greet")
      = handerName (.ResourceReference "ref/prompt" "greet") :=
  ⟨by decide, by decide,
    fun h =>
      absurd ((C20_completion_key_injective "ref/prompt" "greet" "ref/resource" "greet"
        (by decide) (by decide)).2.1.mp h).1 (by decide),
    by decide,
    (C20_completion_key_injective "ref/prompt" "greet" "ref/prompt" "greet"
      (by decide) (by decide)).2.1.mpr ⟨rfl, rfl⟩⟩

end GoMcp
